import Mathlib

/-!
Verification development for the risk-scoring core of the scam-detection
repository (python_ai).  The Python sources are shallowly embedded here:

 - python_ai/config.py       : threshold constants
 - python_ai/anomaly_detection.py :
     detect_zscore_anomalies, detect_volatility_anomalies,
     detect_surge_anomalies, detect_pattern_anomalies, detect_anomalies
 - python_ai/pipeline.py     :
     ScamDetectionPipeline.calibrate_probability, compute_signals,
     combine_predictions, and the risk-level merge of analyze (steps 3-8,
     the deterministic fusion core; the live news-verification step of
     analyze is an external collaborator excluded from the core by the
     specification).

Python floats are embedded as rationals (exact arithmetic over the same
formulas); Python ints as naturals where the source only ever holds
non-negative values (signal weights, counts).  Data frames are embedded as
lists of rows carrying exactly the engineered columns the core reads; the
row read by "df.iloc[-1]" is the last list entry.  Presentational f-string
interpolation inside signal descriptions is replaced by the static text,
since no claim concerns the interpolated digits.
-/

/-- Rows of the engineered price table, holding exactly the columns read by
the detectors and the feature vector (feature_engineering.create_feature_vector
materialises the same values under lowercase names).  The column Return may
be NaN on the first row in the source; it is embedded as an Option. -/
structure Row where
  close : ℚ
  ret : Option ℚ
  returnZScoreShort : ℚ
  returnZScoreLong : ℚ
  priceZScoreLong : ℚ
  volumeZScoreShort : ℚ
  volumeZScoreLong : ℚ
  keltnerPosition : ℚ
  keltnerBreakoutUpper : ℚ
  keltnerBreakoutLower : ℚ
  atrPercent : ℚ
  priceChange1d : ℚ
  priceChange7d : ℚ
  priceChange30d : ℚ
  volumeSurgeFactor : ℚ
  pumpPattern : ℚ
  rsi14 : ℚ
  deriving Repr, DecidableEq

/-- Default row used only to totalise "df.iloc[-1]" on an empty frame (the
Python source would raise there; every claim below concerns non-empty
frames).  The defaults are the neutral values of create_feature_vector. -/
def defaultRow : Row :=
  { close := 0, ret := none, returnZScoreShort := 0, returnZScoreLong := 0,
    priceZScoreLong := 0, volumeZScoreShort := 0, volumeZScoreLong := 0,
    keltnerPosition := 1/2, keltnerBreakoutUpper := 0, keltnerBreakoutLower := 0,
    atrPercent := 0, priceChange1d := 0, priceChange7d := 0, priceChange30d := 0,
    volumeSurgeFactor := 1, pumpPattern := 0, rsi14 := 50 }

/-- ANOMALY_CONFIG z_score_threshold (config.py). -/
def z_score_threshold : ℚ := 3
/-- ANOMALY_CONFIG volume_z_threshold (config.py). -/
def volume_z_threshold : ℚ := 5/2
/-- ANOMALY_CONFIG price_surge_1d_threshold (config.py). -/
def price_surge_1d_threshold : ℚ := 15/100
/-- ANOMALY_CONFIG price_surge_7d_threshold (config.py). -/
def price_surge_7d_threshold : ℚ := 1/2
/-- ANOMALY_CONFIG price_surge_extreme (config.py). -/
def price_surge_extreme : ℚ := 1
/-- ANOMALY_CONFIG volume_surge_moderate (config.py). -/
def volume_surge_moderate : ℚ := 5
/-- ANOMALY_CONFIG volume_surge_extreme (config.py). -/
def volume_surge_extreme : ℚ := 10
/-- RISK_THRESHOLDS LOW (config.py). -/
def risk_threshold_low : ℚ := 3/10
/-- RISK_THRESHOLDS MEDIUM (config.py). -/
def risk_threshold_medium : ℚ := 7/10
/-- MARKET_THRESHOLDS micro_cap (config.py). -/
def micro_cap_threshold : ℚ := 50000000
/-- MARKET_THRESHOLDS small_cap (config.py). -/
def small_cap_threshold : ℚ := 300000000
/-- MARKET_THRESHOLDS micro_liquidity (config.py). -/
def micro_liquidity_threshold : ℚ := 150000
/-- ENSEMBLE_CONFIG rf_weight (config.py). -/
def rf_weight : ℚ := 1/2
/-- ENSEMBLE_CONFIG lstm_weight (config.py). -/
def lstm_weight : ℚ := 1/2
/-- ENSEMBLE_CONFIG use_max_strategy (config.py). -/
def use_max_strategy : Bool := false
/-- OTC_EXCHANGES (config.py). -/
def otc_exchanges : List String :=
  ["OTC", "OTCBB", "OTCQX", "OTCQB", "PINK", "GREY", "OTC MARKETS"]

/-- Shared shape of the output dict of one detector: is_anomaly, anomaly_score,
anomaly_types (anomaly_detection.py). -/
structure DetectorResult where
  is_anomaly : Bool
  anomaly_score : ℚ
  anomaly_types : List String
  deriving Repr, DecidableEq

/-- Output dict of detect_surge_anomalies, including the detail keys that
combine_predictions later reads from details["surge_analysis"]
(price_change_7d is stored multiplied by 100, as in the source). -/
structure SurgeResult where
  is_anomaly : Bool
  anomaly_score : ℚ
  anomaly_types : List String
  price_change_1d_pct : ℚ
  price_change_7d_pct : ℚ
  price_change_30d_pct : ℚ
  volume_surge_factor : ℚ
  pump_pattern : Bool
  deriving Repr, DecidableEq

/-- Output dict of detect_pattern_anomalies; pattern_note models the
pattern_info key, present exactly on the insufficient-history path. -/
structure PatternResult where
  is_anomaly : Bool
  anomaly_score : ℚ
  anomaly_types : List String
  pattern_note : Option String
  deriving Repr, DecidableEq

/-- AnomalyResult dataclass (anomaly_detection.py); of the details dict only
the surge_analysis entry is kept, because it is the only detail the
downstream fusion logic (combine_predictions) reads. -/
structure AnomalyResult where
  is_anomaly : Bool
  anomaly_score : ℚ
  anomaly_types : List String
  surge_analysis : SurgeResult
  deriving Repr, DecidableEq

/-- detect_zscore_anomalies (anomaly_detection.py) at the default thresholds,
reading the latest row.  The score is 1 - 1/(1 + max_z / z_threshold). -/
def detect_zscore_anomalies (latest : Row) : DetectorResult :=
  let return_z_short := |latest.returnZScoreShort|
  let return_z_long := |latest.returnZScoreLong|
  let price_z_long := |latest.priceZScoreLong|
  let volume_z_short := latest.volumeZScoreShort
  let volume_z_long := latest.volumeZScoreLong
  let anomalies_found :=
    (if return_z_short > z_score_threshold then ["extreme_return_short_term"] else []) ++
    (if return_z_long > z_score_threshold then ["extreme_return_long_term"] else []) ++
    (if price_z_long > z_score_threshold then ["price_deviation_from_mean"] else []) ++
    (if volume_z_short > volume_z_threshold then ["volume_spike_short_term"] else []) ++
    (if volume_z_long > volume_z_threshold then ["volume_spike_long_term"] else [])
  let max_z := max return_z_short (max return_z_long (max price_z_long
      (max (max 0 volume_z_short) (max 0 volume_z_long))))
  let normalized_score := 1 - 1 / (1 + max_z / z_score_threshold)
  { is_anomaly := anomalies_found.length > 0,
    anomaly_score := normalized_score,
    anomaly_types := anomalies_found }

/-- detect_volatility_anomalies (anomaly_detection.py), reading the latest
row.  Note the source clamps the average of position deviation and
volatility factor, not each term. -/
def detect_volatility_anomalies (latest : Row) : DetectorResult :=
  let keltner_position := latest.keltnerPosition
  let breakout_upper := latest.keltnerBreakoutUpper
  let breakout_lower := latest.keltnerBreakoutLower
  let atr_percent := latest.atrPercent
  let anomalies_found :=
    (if breakout_upper ≠ 0 then ["keltner_upper_breakout"] else []) ++
    (if breakout_lower ≠ 0 then ["keltner_lower_breakout"] else []) ++
    (if keltner_position > 12/10 then ["extreme_keltner_high"]
     else if keltner_position < -2/10 then ["extreme_keltner_low"] else []) ++
    (if atr_percent > 10 then ["extreme_volatility"] else [])
  let position_deviation := |keltner_position - 1/2| * 2
  let volatility_factor := min (atr_percent / 10) 1
  let score := min ((position_deviation + volatility_factor) / 2) 1
  { is_anomaly := anomalies_found.length > 0,
    anomaly_score := score,
    anomaly_types := anomalies_found }

/-- detect_surge_anomalies (anomaly_detection.py) at the default thresholds,
reading the latest row. -/
def detect_surge_anomalies (latest : Row) : SurgeResult :=
  let price_change_1d := |latest.priceChange1d|
  let price_change_7d := latest.priceChange7d
  let price_change_30d := latest.priceChange30d
  let volume_surge := latest.volumeSurgeFactor
  let anomalies_found :=
    (if price_change_1d > price_surge_1d_threshold then ["daily_price_surge"] else []) ++
    (if |price_change_7d| > price_surge_7d_threshold then
       (if price_change_7d > 0 then ["weekly_price_pump"] else ["weekly_price_dump"])
     else []) ++
    (if |price_change_7d| > price_surge_extreme then ["extreme_weekly_price_move"] else []) ++
    (if volume_surge ≥ volume_surge_extreme then ["extreme_volume_explosion"]
     else if volume_surge ≥ volume_surge_moderate then ["volume_explosion"] else []) ++
    (if latest.pumpPattern ≠ 0 then ["pump_pattern_detected"] else [])
  let price_score := min (|price_change_7d| / price_surge_7d_threshold) 2 / 2
  let volume_score := min (volume_surge / volume_surge_moderate) 2 / 2
  let score := max price_score volume_score
  { is_anomaly := anomalies_found.length > 0,
    anomaly_score := score,
    anomaly_types := anomalies_found,
    price_change_1d_pct := price_change_1d * 100,
    price_change_7d_pct := price_change_7d * 100,
    price_change_30d_pct := price_change_30d * 100,
    volume_surge_factor := volume_surge,
    pump_pattern := latest.pumpPattern ≠ 0 }

/-- Index of the first occurrence of the maximum of a list of rationals
(pandas Series.idxmax on the Close column returns the first maximal label). -/
def firstMaxIdx : List ℚ → ℕ
  | [] => 0
  | [_] => 0
  | x :: y :: rest =>
      let j := firstMaxIdx (y :: rest)
      if x ≥ (y :: rest).getD j 0 then 0 else j + 1

/-- Pump-and-dump shape test of detect_pattern_anomalies, acting on the Close
values of the trailing window.  Division is rational division; the Python
float division only differs on a zero denominator (a zero close price), where
the source produces an IEEE infinity instead of raising. -/
def pumpAndDumpFlag (closes : List ℚ) (lookback : ℕ) : Bool :=
  let p := firstMaxIdx closes
  if p > lookback / 3 ∧ p < lookback * 2 / 3 then
    let pre_peak := closes.take (p + 1)
    let post_peak := closes.drop p
    if pre_peak.length > 2 ∧ post_peak.length > 2 then
      let pre_peak_return := pre_peak.getLastD 0 / pre_peak.headD 0 - 1
      let post_peak_return := post_peak.getLastD 0 / post_peak.headD 0 - 1
      pre_peak_return > 3/10 ∧ post_peak_return < -2/10
    else false
  else false

/-- Coordinated volume/price test of detect_pattern_anomalies: at least three
window days with Volume_Surge_Factor above 3 and at least three with an
absolute daily move above 5 percent. -/
def coordinatedFlag (recent : List Row) : Bool :=
  let high_vol_days := recent.countP (fun r => r.volumeSurgeFactor > 3)
  let high_price_move_days := recent.countP (fun r => |r.priceChange1d| > 5/100)
  high_vol_days ≥ 3 ∧ high_price_move_days ≥ 3

/-- Suspicious-consistency test of detect_pattern_anomalies: with more than
five non-null returns in the window, flag when the count of positive returns
exceeds lookback * 0.8. -/
def streakFlag (rets : List (Option ℚ)) (lookback : ℕ) : Bool :=
  let returns := rets.filterMap id
  if returns.length > 5 then
    let positive_streak := returns.countP (fun r => r > 0)
    (positive_streak : ℚ) > (lookback : ℚ) * 8/10
  else false

/-- detect_pattern_anomalies (anomaly_detection.py): zero/no-op result with a
note when fewer rows than the lookback are available, otherwise the three
pattern tests over the trailing lookback window, scored 0.3 per fired test
and capped at 1. -/
def detect_pattern_anomalies (rows : List Row) (lookback : ℕ := 14) : PatternResult :=
  if rows.length < lookback then
    { is_anomaly := false, anomaly_score := 0, anomaly_types := [],
      pattern_note := some "Insufficient data for pattern analysis" }
  else
    let recent := rows.drop (rows.length - lookback)
    let anomalies_found :=
      (if pumpAndDumpFlag (recent.map Row.close) lookback then ["pump_and_dump_pattern"] else []) ++
      (if coordinatedFlag recent then ["coordinated_volume_price_activity"] else []) ++
      (if streakFlag (recent.map Row.ret) lookback then ["suspicious_positive_streak"] else [])
    { is_anomaly := anomalies_found.length > 0,
      anomaly_score := min ((anomalies_found.length : ℚ) * 3/10) 1,
      anomaly_types := anomalies_found,
      pattern_note := none }

/-- Combination step of detect_anomalies (anomaly_detection.py, lines
311-366): tag union in detector order, weighted score, sensitivity scaling
with clamp to 1, news dampening, and the final anomaly decision. -/
def aggregate_anomalies (zscore_result volatility_result : DetectorResult)
    (surge_result : SurgeResult) (pattern_result : PatternResult)
    (news_flag : Bool) (sensitivity : ℚ) : AnomalyResult :=
  let all_anomaly_types :=
    zscore_result.anomaly_types ++ volatility_result.anomaly_types ++
    surge_result.anomaly_types ++ pattern_result.anomaly_types
  let combined_score :=
    zscore_result.anomaly_score * (25/100) +
    volatility_result.anomaly_score * (2/10) +
    surge_result.anomaly_score * (35/100) +
    pattern_result.anomaly_score * (2/10)
  let combined_score := min (combined_score * sensitivity) 1
  let damp := news_flag ∧ combined_score > 3/10
  let combined_score := if damp then combined_score * (6/10) else combined_score
  let all_anomaly_types :=
    if damp then
      all_anomaly_types.filter
        (fun t => ¬ (t = "daily_price_surge" ∨ t = "weekly_price_pump"))
    else all_anomaly_types
  let is_anomaly := combined_score > 4/10 ∨ all_anomaly_types.length ≥ 3
  { is_anomaly := is_anomaly,
    anomaly_score := combined_score,
    anomaly_types := all_anomaly_types,
    surge_analysis := surge_result }

/-- detect_anomalies (anomaly_detection.py): run the four detectors on the
frame (the row detectors on the last row, the pattern detector on the
trailing window) and aggregate. -/
def detect_anomalies (rows : List Row) (news_flag : Bool := false)
    (sensitivity : ℚ := 1) : AnomalyResult :=
  let latest := rows.getLastD defaultRow
  aggregate_anomalies
    (detect_zscore_anomalies latest)
    (detect_volatility_anomalies latest)
    (detect_surge_anomalies latest)
    (detect_pattern_anomalies rows)
    news_flag sensitivity

/-- Python str.upper restricted to the ASCII alphabet, as applied to exchange
codes (pipeline.py compute_signals: exchange.upper() in OTC_EXCHANGES). -/
def pyUpper (s : String) : String := ⟨s.data.map Char.toUpper⟩

/-- SignalDetail dataclass (pipeline.py).  Weights are non-negative integer
literals in the source, embedded as naturals; the description strings carry
the static text of the source f-strings (the interpolated digits are purely
presentational). -/
structure SignalDetail where
  code : String
  category : String
  description : String
  weight : ℕ
  deriving Repr, DecidableEq

/-- Fundamentals dictionary as read by the pipeline: a missing key is None
(fundamentals.get with no default), embedded as Option. -/
structure Fundamentals where
  current_price : Option ℚ
  market_cap : Option ℚ
  avg_daily_volume : Option ℚ
  is_otc : Bool
  exchange : String
  deriving Repr, DecidableEq

/-- Feature-vector entries read by compute_signals; create_feature_vector
(feature_engineering.py) fills them from the latest engineered row. -/
structure FeatVec where
  return_zscore_short : ℚ
  return_zscore_long : ℚ
  price_zscore_long : ℚ
  volume_zscore_short : ℚ
  volume_zscore_long : ℚ
  volume_surge_factor : ℚ
  atr_percent : ℚ
  keltner_breakout_upper : ℚ
  price_change_7d : ℚ
  price_change_30d : ℚ
  pump_pattern : ℚ
  rsi_14 : ℚ
  deriving Repr, DecidableEq

/-- Projection of create_feature_vector (feature_engineering.py) onto the
entries compute_signals reads: each is the corresponding column of the
latest row. -/
def featureVectorOf (latest : Row) : FeatVec :=
  { return_zscore_short := latest.returnZScoreShort
    return_zscore_long := latest.returnZScoreLong
    price_zscore_long := latest.priceZScoreLong
    volume_zscore_short := latest.volumeZScoreShort
    volume_zscore_long := latest.volumeZScoreLong
    volume_surge_factor := latest.volumeSurgeFactor
    atr_percent := latest.atrPercent
    keltner_breakout_upper := latest.keltnerBreakoutUpper
    price_change_7d := latest.priceChange7d
    price_change_30d := latest.priceChange30d
    pump_pattern := latest.pumpPattern
    rsi_14 := latest.rsi14 }

/-- Python expression fundamentals.get("current_price") or
(float(price_data["Close"].iloc[-1]) if len(price_data) > 0 else 0): a
missing or zero (falsy) current_price falls back to the last close price,
or to 0 on an empty table (pipeline.py compute_signals). -/
def resolvedCurrentPrice (f : Fundamentals) (price_rows : List Row) : ℚ :=
  let fallback := if price_rows.length > 0 then (price_rows.getLastD defaultRow).close else 0
  match f.current_price with
  | none => fallback
  | some v => if v = 0 then fallback else v

/-- Conditional signal block: the body of one "if cond: signals.append(s)"
step of compute_signals. -/
def sblock (c : Prop) [Decidable c] (s : SignalDetail) : List SignalDetail :=
  if c then [s] else []

/-- Two-tier signal block: "if c1: append s1 elif c2: append s2". -/
def sblock2 (c1 : Prop) [Decidable c1] (s1 : SignalDetail)
    (c2 : Prop) [Decidable c2] (s2 : SignalDetail) : List SignalDetail :=
  if c1 then [s1] else if c2 then [s2] else []

/-- Three-tier signal block: "if c1: ... elif c2: ... elif c3: ...". -/
def sblock3 (c1 : Prop) [Decidable c1] (s1 : SignalDetail)
    (c2 : Prop) [Decidable c2] (s2 : SignalDetail)
    (c3 : Prop) [Decidable c3] (s3 : SignalDetail) : List SignalDetail :=
  if c1 then [s1] else if c2 then [s2] else if c3 then [s3] else []

/-- ScamDetectionPipeline.compute_signals (pipeline.py): the ordered list of
rule-based risk signals over the feature vector, fundamentals, SEC flag,
anomaly tags and price table. -/
def compute_signals (feat : FeatVec) (f : Fundamentals) (sec_flagged : Bool)
    (anomaly_result : AnomalyResult) (price_rows : List Row) : List SignalDetail :=
  let current_price := resolvedCurrentPrice f price_rows
  let market_cap := f.market_cap.getD 0
  let avg_volume := f.avg_daily_volume.getD 0
  let price_change_7d := feat.price_change_7d * 100
  let vol_surge := feat.volume_surge_factor
  let price_z := max |feat.return_zscore_short|
      (max |feat.return_zscore_long| |feat.price_zscore_long|)
  let vol_z := max feat.volume_zscore_short feat.volume_zscore_long
  let rsi := feat.rsi_14
  let atr_pct := feat.atr_percent
  let price_change_30d := feat.price_change_30d * 100
  sblock (0 < current_price ∧ current_price < 5)
    { code := "MICROCAP_PRICE", category := "STRUCTURAL",
      description := "Stock price is below $5 - penny stock territory", weight := 2 } ++
  sblock (0 < market_cap ∧ market_cap < small_cap_threshold)
    { code := "SMALL_MARKET_CAP", category := "STRUCTURAL",
      description := "Small market cap - more vulnerable to manipulation", weight := 2 } ++
  sblock (0 < avg_volume ∧ avg_volume < micro_liquidity_threshold)
    { code := "MICRO_LIQUIDITY", category := "STRUCTURAL",
      description := "Very low daily volume - easier to manipulate", weight := 2 } ++
  sblock (f.is_otc = true ∨ pyUpper f.exchange ∈ otc_exchanges)
    { code := "OTC_EXCHANGE", category := "STRUCTURAL",
      description := "Traded on OTC market - less regulatory oversight", weight := 3 } ++
  sblock2 (|price_change_7d| ≥ 50)
    { code := "SPIKE_7D", category := "PATTERN",
      description := "Extreme 7-day price move - classic pump pattern", weight := 4 }
    (|price_change_7d| ≥ 25)
    { code := "SPIKE_7D", category := "PATTERN",
      description := "Significant 7-day price move", weight := 3 } ++
  sblock2 (vol_surge ≥ 5)
    { code := "VOLUME_EXPLOSION", category := "PATTERN",
      description := "Volume far above the 30-day average - extreme unusual activity", weight := 3 }
    (vol_surge ≥ 3)
    { code := "VOLUME_EXPLOSION", category := "PATTERN",
      description := "Volume above the 30-day average - unusual activity", weight := 2 } ++
  sblock ("pump_and_dump_pattern" ∈ anomaly_result.anomaly_types)
    { code := "SPIKE_THEN_DROP", category := "PATTERN",
      description := "Price spiked then dropped sharply - classic pump-and-dump pattern", weight := 3 } ++
  sblock3 (price_z ≥ 3)
    { code := "PRICE_ANOMALY", category := "PATTERN",
      description := "Extreme price anomaly - statistically unusual", weight := 4 }
    (price_z ≥ 2)
    { code := "PRICE_ANOMALY", category := "PATTERN",
      description := "Significant price anomaly", weight := 3 }
    (price_z ≥ 3/2)
    { code := "PRICE_ANOMALY", category := "PATTERN",
      description := "Moderate price anomaly", weight := 2 } ++
  sblock (vol_z ≥ 2)
    { code := "VOLUME_ANOMALY", category := "PATTERN",
      description := "Abnormal volume - possible coordinated buying", weight := 2 } ++
  sblock2 (rsi > 80)
    { code := "OVERBOUGHT_RSI", category := "PATTERN",
      description := "Extremely overbought - price unsustainably high", weight := 2 }
    (rsi > 70)
    { code := "OVERBOUGHT_RSI", category := "PATTERN",
      description := "Overbought", weight := 1 } ++
  sblock2 (atr_pct > 10)
    { code := "HIGH_VOLATILITY", category := "PATTERN",
      description := "Extreme volatility", weight := 2 }
    (atr_pct > 5)
    { code := "HIGH_VOLATILITY", category := "PATTERN",
      description := "High volatility", weight := 1 } ++
  sblock (feat.pump_pattern ≠ 0 ∨ "pump_pattern_detected" ∈ anomaly_result.anomaly_types)
    { code := "PUMP_PATTERN", category := "PATTERN",
      description := "Combined price pump + volume explosion detected", weight := 3 } ++
  sblock (feat.keltner_breakout_upper ≠ 0)
    { code := "KELTNER_BREAKOUT", category := "PATTERN",
      description := "Price broke above volatility envelope (Keltner upper breakout)", weight := 1 } ++
  sblock (|price_change_30d| ≥ 100)
    { code := "EXTREME_SURGE", category := "PATTERN",
      description := "Extreme 30-day move - rapid appreciation", weight := 3 } ++
  sblock (sec_flagged = true)
    { code := "ALERT_LIST_HIT", category := "ALERT",
      description := "Appears on SEC / regulatory alert or suspension list - extreme caution", weight := 5 }

/-- ScamDetectionPipeline.calibrate_probability (pipeline.py): probability to
categorical risk level via RISK_THRESHOLDS. -/
def calibrate_probability (probability : ℚ) : String :=
  if probability < risk_threshold_low then "LOW"
  else if probability < risk_threshold_medium then "MEDIUM"
  else "HIGH"

/-- Severe-anomaly tag list of combine_predictions (pipeline.py). -/
def severe_anomalies : List String :=
  ["pump_and_dump_pattern", "pump_pattern_detected",
   "extreme_volume_explosion", "extreme_weekly_price_move",
   "coordinated_volume_price_activity", "extreme_volatility"]

/-- Machine-learning ensemble value of combine_predictions (pipeline.py):
rf probability alone when the LSTM one is absent, otherwise max or the
ENSEMBLE_CONFIG-weighted average. -/
def ml_prob (rf_prob : ℚ) (lstm_prob : Option ℚ) : ℚ :=
  match lstm_prob with
  | none => rf_prob
  | some l =>
      if use_max_strategy then max rf_prob l
      else rf_prob * rf_weight + l * lstm_weight

/-- ScamDetectionPipeline.combine_predictions (pipeline.py): anomaly-score
floor under the ML blend, then the cascade of max floors (SEC flag, OTC
movement, OTC + micro-cap, severe patterns, risk-factor count), clamped by
min(combined, 1.0). -/
def combine_predictions (rf_prob : ℚ) (lstm_prob : Option ℚ)
    (anomaly_result : AnomalyResult) (sec_flagged : Bool)
    (is_otc : Bool := false) (is_micro_cap : Bool := false) : ℚ :=
  let mlp := ml_prob rf_prob lstm_prob
  let combined := max anomaly_result.anomaly_score
    (anomaly_result.anomaly_score * (7/10) + mlp * (3/10))
  let combined := if sec_flagged then max combined (85/100) else combined
  let price_change_7d := anomaly_result.surge_analysis.price_change_7d_pct / 100
  let volume_surge := anomaly_result.surge_analysis.volume_surge_factor
  let combined :=
    if is_otc ∧ (|price_change_7d| > 15/100 ∨ volume_surge > 5/2)
    then max combined (45/100) else combined
  let combined := if is_otc ∧ is_micro_cap then max combined (1/2) else combined
  let has_severe_pattern :=
    severe_anomalies.any (fun a => decide (a ∈ anomaly_result.anomaly_types))
  let combined := if has_severe_pattern then max combined (65/100) else combined
  let combined := if has_severe_pattern ∧ is_otc then max combined (75/100) else combined
  let combined := if has_severe_pattern ∧ is_otc ∧ is_micro_cap then max combined (80/100) else combined
  let combined := if has_severe_pattern ∧ is_micro_cap then max combined (70/100) else combined
  let risk_factor_count :=
    [is_otc, is_micro_cap, has_severe_pattern, anomaly_result.is_anomaly,
     sec_flagged].countP id
  let combined := if risk_factor_count ≥ 3 then max combined (70/100) else combined
  let combined := if risk_factor_count ≥ 4 then max combined (80/100) else combined
  min combined 1

/-- Risk-priority dictionary of analyze (pipeline.py):
risk_priority.get(level, 0). -/
def risk_priority (level : String) : ℕ :=
  if level = "LOW" then 0
  else if level = "MEDIUM" then 1
  else if level = "HIGH" then 2
  else 0

/-- Inputs of one run of the deterministic risk-scoring core of
ScamDetectionPipeline.analyze (pipeline.py): the engineered price table, the
fundamentals, the resolved SEC flag, the news flag, and the two externally
supplied model probabilities. -/
structure CoreInput where
  rows : List Row
  fundamentals : Fundamentals
  sec_flagged : Bool
  news_flag : Bool
  rf_prob : ℚ
  lstm_prob : Option ℚ

/-- Step 3 of analyze: detect_anomalies on the engineered table at default
sensitivity. -/
def anomalyResultOf (I : CoreInput) : AnomalyResult :=
  detect_anomalies I.rows I.news_flag 1

/-- Step 6 of analyze: compute_signals over the feature vector of the latest
row. -/
def signalsOf (I : CoreInput) : List SignalDetail :=
  compute_signals (featureVectorOf (I.rows.getLastD defaultRow)) I.fundamentals
    I.sec_flagged (anomalyResultOf I) I.rows

/-- signal_total_score of analyze: sum of the fired signal weights. -/
def signal_total_scoreOf (I : CoreInput) : ℕ :=
  ((signalsOf I).map SignalDetail.weight).sum

/-- Signal-based risk level of analyze (pipeline.py lines 673-682). -/
def signal_risk_levelOf (I : CoreInput) : String :=
  if (signalsOf I).any (fun s => s.code == "ALERT_LIST_HIT") then "HIGH"
  else if signal_total_scoreOf I ≥ 5 then "HIGH"
  else if signal_total_scoreOf I ≥ 2 then "MEDIUM"
  else "LOW"

/-- is_micro_cap of analyze (pipeline.py line 687-688): a missing market cap
is read as float infinity, so it never counts as micro-cap. -/
def is_micro_capOf (f : Fundamentals) : Bool :=
  match f.market_cap with
  | none => false
  | some mc => decide (mc < micro_cap_threshold)

/-- Step 7 of analyze: the fused probability. -/
def combined_probabilityOf (I : CoreInput) : ℚ :=
  combine_predictions I.rf_prob I.lstm_prob (anomalyResultOf I) I.sec_flagged
    I.fundamentals.is_otc (is_micro_capOf I.fundamentals)

/-- ML-side risk level of analyze. -/
def ml_risk_levelOf (I : CoreInput) : String :=
  calibrate_probability (combined_probabilityOf I)

/-- Final risk level of the deterministic core of analyze (pipeline.py lines
698-704): the higher-priority of the signal-based and ML-based levels.  The
later live news-verification step of analyze is an external collaborator the
specification excludes from the core. -/
def risk_levelOf (I : CoreInput) : String :=
  if risk_priority (signal_risk_levelOf I) ≥ risk_priority (ml_risk_levelOf I)
  then signal_risk_levelOf I
  else ml_risk_levelOf I

/-- Higher-severity merge of two risk levels on the ordinal scale
LOW(0) < MEDIUM(1) < HIGH(2), as the specification describes the final
verdict (ties cannot diverge: equal priority means equal level among the
three levels). -/
def max_severity (a b : String) : String :=
  if risk_priority a ≥ risk_priority b then a else b

/-- Modelled from the spec wording of claim C2: the candidate total function
from (combined probability, signal total score) to the final risk level. -/
def risk_from_prob_and_score (p : ℚ) (t : ℕ) : String :=
  let sig := if t ≥ 5 then "HIGH" else if t ≥ 2 then "MEDIUM" else "LOW"
  max_severity sig (calibrate_probability p)

/-- Modelled from the spec wording of claim C5: the probability-based
verdict (prob < 0.3 low, prob < 0.7 medium, else high). -/
def prob_verdict_spec (p : ℚ) : String :=
  if p < 3/10 then "LOW" else if p < 7/10 then "MEDIUM" else "HIGH"

/-- Modelled from the spec wording of claim C5: the signal-based verdict
(any ALERT-category signal forces high; else weight thresholds 5 and 2). -/
def signal_verdict_spec (signals : List SignalDetail) : String :=
  if signals.any (fun s => s.category == "ALERT") then "HIGH"
  else if ((signals.map SignalDetail.weight).sum) ≥ 5 then "HIGH"
  else if ((signals.map SignalDetail.weight).sum) ≥ 2 then "MEDIUM"
  else "LOW"

/-- Modelled from the spec wording of claim C7: the volatility score as the
average of two individually clamped terms. -/
def volatility_score_claimC7 (latest : Row) : ℚ :=
  (min (|latest.keltnerPosition - 1/2| * 2) 1 + min (latest.atrPercent / 10) 1) / 2

/-- Python float values as far as combine_predictions can observe them when
a caller passes a non-finite probability: either NaN or a finite value (the
embedded rational).  Used to settle the error-handling claim about NaN
inputs; the source function contains no raise statement and no finiteness
check, so its embedding is a total function on this type. -/
inductive PyFloat where
  | nan : PyFloat
  | val : ℚ → PyFloat
  deriving Repr, DecidableEq

/-- Python comparison a < b: any comparison with NaN is False. -/
def pyLt : PyFloat → PyFloat → Bool
  | .val a, .val b => decide (a < b)
  | _, _ => false

/-- Python max(a, b): returns b only when b > a, so a NaN second argument is
silently dropped and a NaN first argument is silently kept. -/
def pyMax (a b : PyFloat) : PyFloat := if pyLt a b then b else a

/-- Python min(a, b): returns b only when b < a. -/
def pyMin (a b : PyFloat) : PyFloat := if pyLt b a then b else a

/-- IEEE addition restricted to finite-or-NaN values: NaN propagates. -/
def pyAdd : PyFloat → PyFloat → PyFloat
  | .val a, .val b => .val (a + b)
  | _, _ => .nan

/-- IEEE multiplication restricted to finite-or-NaN values: NaN propagates. -/
def pyMul : PyFloat → PyFloat → PyFloat
  | .val a, .val b => .val (a * b)
  | _, _ => .nan

/-- ml_prob of combine_predictions over Python float semantics. -/
def ml_prob_py (rf_prob : PyFloat) (lstm_prob : Option PyFloat) : PyFloat :=
  match lstm_prob with
  | none => rf_prob
  | some l =>
      if use_max_strategy then pyMax rf_prob l
      else pyAdd (pyMul rf_prob (.val rf_weight)) (pyMul l (.val lstm_weight))

/-- ScamDetectionPipeline.combine_predictions (pipeline.py) re-embedded over
Python float semantics for the externally supplied probabilities, to observe
what the source does on a NaN input: it has no raise path, and the max
blending silently drops a NaN blend term because NaN comparisons are false. -/
def combine_predictions_py (rf_prob : PyFloat) (lstm_prob : Option PyFloat)
    (anomaly_result : AnomalyResult) (sec_flagged : Bool)
    (is_otc : Bool := false) (is_micro_cap : Bool := false) : PyFloat :=
  let mlp := ml_prob_py rf_prob lstm_prob
  let a : PyFloat := .val anomaly_result.anomaly_score
  let combined := pyMax a (pyAdd (pyMul a (.val (7/10))) (pyMul mlp (.val (3/10))))
  let combined := if sec_flagged then pyMax combined (.val (85/100)) else combined
  let price_change_7d := anomaly_result.surge_analysis.price_change_7d_pct / 100
  let volume_surge := anomaly_result.surge_analysis.volume_surge_factor
  let combined :=
    if is_otc ∧ (|price_change_7d| > 15/100 ∨ volume_surge > 5/2)
    then pyMax combined (.val (45/100)) else combined
  let combined := if is_otc ∧ is_micro_cap then pyMax combined (.val (1/2)) else combined
  let has_severe_pattern :=
    severe_anomalies.any (fun a => decide (a ∈ anomaly_result.anomaly_types))
  let combined := if has_severe_pattern then pyMax combined (.val (65/100)) else combined
  let combined := if has_severe_pattern ∧ is_otc then pyMax combined (.val (75/100)) else combined
  let combined := if has_severe_pattern ∧ is_otc ∧ is_micro_cap then pyMax combined (.val (80/100)) else combined
  let combined := if has_severe_pattern ∧ is_micro_cap then pyMax combined (.val (70/100)) else combined
  let risk_factor_count :=
    [is_otc, is_micro_cap, has_severe_pattern, anomaly_result.is_anomaly,
     sec_flagged].countP id
  let combined := if risk_factor_count ≥ 3 then pyMax combined (.val (70/100)) else combined
  let combined := if risk_factor_count ≥ 4 then pyMax combined (.val (80/100)) else combined
  pyMin combined (.val 1)

/-- Replacement of the last row of a list (all other rows kept): the shape of
a single-feature change to the latest row of the price table. -/
def setLast (f : Row → Row) : List Row → List Row
  | [] => []
  | [r] => [f r]
  | r :: r2 :: rest => r :: setLast f (r2 :: rest)

/-- Update of the Volume_Surge_Factor feature of a row. -/
def updVolumeSurgeFactor (v : ℚ) (r : Row) : Row := { r with volumeSurgeFactor := v }
/-- Update of the Price_Change_1d feature of a row. -/
def updPriceChange1d (v : ℚ) (r : Row) : Row := { r with priceChange1d := v }
/-- Update of the Price_Change_7d feature of a row. -/
def updPriceChange7d (v : ℚ) (r : Row) : Row := { r with priceChange7d := v }
/-- Update of the Price_Change_30d feature of a row. -/
def updPriceChange30d (v : ℚ) (r : Row) : Row := { r with priceChange30d := v }
/-- Update of the Return_ZScore_Short feature of a row. -/
def updReturnZScoreShort (v : ℚ) (r : Row) : Row := { r with returnZScoreShort := v }
/-- Update of the Return_ZScore_Long feature of a row. -/
def updReturnZScoreLong (v : ℚ) (r : Row) : Row := { r with returnZScoreLong := v }
/-- Update of the Price_ZScore_Long feature of a row. -/
def updPriceZScoreLong (v : ℚ) (r : Row) : Row := { r with priceZScoreLong := v }
/-- Update of the Volume_ZScore_Short feature of a row. -/
def updVolumeZScoreShort (v : ℚ) (r : Row) : Row := { r with volumeZScoreShort := v }
/-- Update of the Volume_ZScore_Long feature of a row. -/
def updVolumeZScoreLong (v : ℚ) (r : Row) : Row := { r with volumeZScoreLong := v }

/-- Monotonicity of the pipeline in one feature of the latest row: raising
the feature from a non-negative value v to v' (all other inputs fixed, news
flag off) never decreases the aggregated anomaly score or the fused
combined probability. -/
def FeatureMono (upd : ℚ → Row → Row) : Prop :=
  ∀ (rows : List Row) (f : Fundamentals) (sec : Bool) (rf : ℚ)
    (lstm : Option ℚ) (v v' : ℚ), 0 ≤ v → v ≤ v' →
    (anomalyResultOf ⟨setLast (upd v) rows, f, sec, false, rf, lstm⟩).anomaly_score ≤
      (anomalyResultOf ⟨setLast (upd v') rows, f, sec, false, rf, lstm⟩).anomaly_score ∧
    combined_probabilityOf ⟨setLast (upd v) rows, f, sec, false, rf, lstm⟩ ≤
      combined_probabilityOf ⟨setLast (upd v') rows, f, sec, false, rf, lstm⟩

/-- Comparison of two detector results used in the monotonicity argument:
the score does not decrease, the tag count does not decrease, and every
severe tag present before is present after. -/
structure DetLE (d d' : DetectorResult) : Prop where
  score_le : d.anomaly_score ≤ d'.anomaly_score
  len_le : d.anomaly_types.length ≤ d'.anomaly_types.length
  severe_imp : ∀ t ∈ severe_anomalies, t ∈ d.anomaly_types → t ∈ d'.anomaly_types

/-- Comparison of two surge results: detector comparison plus preservation
of the OTC-movement predicate combine_predictions reads from the surge
details. -/
structure SurgeLE (s s' : SurgeResult) : Prop where
  score_le : s.anomaly_score ≤ s'.anomaly_score
  len_le : s.anomaly_types.length ≤ s'.anomaly_types.length
  severe_imp : ∀ t ∈ severe_anomalies, t ∈ s.anomaly_types → t ∈ s'.anomaly_types
  otc_imp : (|s.price_change_7d_pct / 100| > 15/100 ∨ s.volume_surge_factor > 5/2) →
    (|s'.price_change_7d_pct / 100| > 15/100 ∨ s'.volume_surge_factor > 5/2)

/-- Sufficient per-detector conditions on a single-feature update for the
pipeline monotonicity claim: the update preserves the close and return
columns (so the windowed pattern shapes are unchanged), leaves the
volatility detector unchanged, and improves the z-score and surge detectors
and the two windowed count predicates monotonically. -/
structure MonoUpdate (upd : ℚ → Row → Row) : Prop where
  close_eq : ∀ v r, (upd v r).close = r.close
  ret_eq : ∀ v r, (upd v r).ret = r.ret
  zscore_le : ∀ r v v', 0 ≤ v → v ≤ v' →
    DetLE (detect_zscore_anomalies (upd v r)) (detect_zscore_anomalies (upd v' r))
  volat_eq : ∀ v v' r,
    detect_volatility_anomalies (upd v r) = detect_volatility_anomalies (upd v' r)
  surge_le : ∀ r v v', 0 ≤ v → v ≤ v' →
    SurgeLE (detect_surge_anomalies (upd v r)) (detect_surge_anomalies (upd v' r))
  volcount_imp : ∀ r v v', 0 ≤ v → v ≤ v' →
    ((upd v r).volumeSurgeFactor > 3 → (upd v' r).volumeSurgeFactor > 3)
  pricecount_imp : ∀ r v v', 0 ≤ v → v ≤ v' →
    (|(upd v r).priceChange1d| > 5/100 → |(upd v' r).priceChange1d| > 5/100)

example :
    (detect_anomalies [{ defaultRow with volumeSurgeFactor := 17/2 }] true
      1).anomaly_score = 119/400 := by
  norm_num [detect_anomalies, aggregate_anomalies, detect_zscore_anomalies,
    detect_volatility_anomalies, detect_surge_anomalies,
    detect_pattern_anomalies, defaultRow, z_score_threshold,
    volume_z_threshold, price_surge_1d_threshold, price_surge_7d_threshold,
    price_surge_extreme, volume_surge_moderate, volume_surge_extreme,
    min_def, max_def, abs_eq_max_neg]

example :
    (detect_anomalies [{ defaultRow with volumeSurgeFactor := 9 }] true
      1).anomaly_score = 189/1000 := by
  norm_num [detect_anomalies, aggregate_anomalies, detect_zscore_anomalies,
    detect_volatility_anomalies, detect_surge_anomalies,
    detect_pattern_anomalies, defaultRow, z_score_threshold,
    volume_z_threshold, price_surge_1d_threshold, price_surge_7d_threshold,
    price_surge_extreme, volume_surge_moderate, volume_surge_extreme,
    min_def, max_def, abs_eq_max_neg]

theorem any_sblock (c : Prop) [Decidable c] (s : SignalDetail) (p : SignalDetail → Bool) :
    (sblock c s).any p = if c then p s else false := by
  unfold sblock
  split <;> simp

theorem any_sblock2 (c1 : Prop) [Decidable c1] (s1 : SignalDetail)
    (c2 : Prop) [Decidable c2] (s2 : SignalDetail) (p : SignalDetail → Bool) :
    (sblock2 c1 s1 c2 s2).any p =
      if c1 then p s1 else if c2 then p s2 else false := by
  unfold sblock2
  split <;> [skip; split] <;> simp

theorem any_sblock3 (c1 : Prop) [Decidable c1] (s1 : SignalDetail)
    (c2 : Prop) [Decidable c2] (s2 : SignalDetail)
    (c3 : Prop) [Decidable c3] (s3 : SignalDetail) (p : SignalDetail → Bool) :
    (sblock3 c1 s1 c2 s2 c3 s3).any p =
      if c1 then p s1 else if c2 then p s2 else if c3 then p s3 else false := by
  unfold sblock3
  split <;> [skip; split] <;> [skip; skip; split] <;> simp

theorem wsum_sblock (c : Prop) [Decidable c] (s : SignalDetail) :
    ((sblock c s).map SignalDetail.weight).sum = if c then s.weight else 0 := by
  unfold sblock
  split <;> simp

theorem wsum_sblock2 (c1 : Prop) [Decidable c1] (s1 : SignalDetail)
    (c2 : Prop) [Decidable c2] (s2 : SignalDetail) :
    ((sblock2 c1 s1 c2 s2).map SignalDetail.weight).sum =
      if c1 then s1.weight else if c2 then s2.weight else 0 := by
  unfold sblock2
  split <;> [skip; split] <;> simp

theorem wsum_sblock3 (c1 : Prop) [Decidable c1] (s1 : SignalDetail)
    (c2 : Prop) [Decidable c2] (s2 : SignalDetail)
    (c3 : Prop) [Decidable c3] (s3 : SignalDetail) :
    ((sblock3 c1 s1 c2 s2 c3 s3).map SignalDetail.weight).sum =
      if c1 then s1.weight else if c2 then s2.weight else if c3 then s3.weight else 0 := by
  unfold sblock3
  split <;> [skip; split] <;> [skip; skip; split] <;> simp

theorem mem_sblock (c : Prop) [Decidable c] (s x : SignalDetail) :
    x ∈ sblock c s ↔ c ∧ x = s := by
  unfold sblock
  split <;> simp_all

theorem mem_sblock2 (c1 : Prop) [Decidable c1] (s1 : SignalDetail)
    (c2 : Prop) [Decidable c2] (s2 : SignalDetail) (x : SignalDetail) :
    x ∈ sblock2 c1 s1 c2 s2 ↔ (c1 ∧ x = s1) ∨ (¬ c1 ∧ c2 ∧ x = s2) := by
  unfold sblock2
  split <;> [skip; split] <;> simp_all

theorem mem_sblock3 (c1 : Prop) [Decidable c1] (s1 : SignalDetail)
    (c2 : Prop) [Decidable c2] (s2 : SignalDetail)
    (c3 : Prop) [Decidable c3] (s3 : SignalDetail) (x : SignalDetail) :
    x ∈ sblock3 c1 s1 c2 s2 c3 s3 ↔
      (c1 ∧ x = s1) ∨ (¬ c1 ∧ c2 ∧ x = s2) ∨ (¬ c1 ∧ ¬ c2 ∧ c3 ∧ x = s3) := by
  unfold sblock3
  split <;> [skip; split] <;> [skip; skip; split] <;> simp_all

theorem floor_step_ge (c v : ℚ) (P : Prop) [Decidable P] :
    c ≤ if P then max c v else c := by
  split
  · exact le_max_left c v
  · exact le_rfl

theorem floor_step_floor {v : ℚ} (c : ℚ) {P : Prop} [Decidable P] (hP : P) :
    v ≤ if P then max c v else c := by
  rw [if_pos hP]
  exact le_max_right c v

theorem floor_step_mono {c c' : ℚ} (v : ℚ) {P P' : Prop} [Decidable P] [Decidable P']
    (hc : c ≤ c') (hP : P → P') :
    (if P then max c v else c) ≤ (if P' then max c' v else c') := by
  by_cases h : P
  · rw [if_pos h, if_pos (hP h)]
    exact max_le_max hc le_rfl
  · rw [if_neg h]
    refine le_trans hc (floor_step_ge c' v P')

theorem max_z_nonneg (r : Row) :
    0 ≤ max |r.returnZScoreShort| (max |r.returnZScoreLong| (max |r.priceZScoreLong|
      (max (max 0 r.volumeZScoreShort) (max 0 r.volumeZScoreLong)))) :=
  le_trans (abs_nonneg _) (le_max_left _ _)

theorem detect_zscore_score_nonneg (r : Row) :
    0 ≤ (detect_zscore_anomalies r).anomaly_score := by
  have hmz := max_z_nonneg r
  simp only [detect_zscore_anomalies]
  have hd : (0:ℚ) < 1 + max |r.returnZScoreShort| (max |r.returnZScoreLong|
      (max |r.priceZScoreLong| (max (max 0 r.volumeZScoreShort)
        (max 0 r.volumeZScoreLong)))) / z_score_threshold := by
    have : (0:ℚ) ≤ max |r.returnZScoreShort| (max |r.returnZScoreLong|
        (max |r.priceZScoreLong| (max (max 0 r.volumeZScoreShort)
          (max 0 r.volumeZScoreLong)))) / z_score_threshold := by
      apply div_nonneg hmz
      norm_num [z_score_threshold]
    linarith
  have h1 : 1 / (1 + max |r.returnZScoreShort| (max |r.returnZScoreLong|
      (max |r.priceZScoreLong| (max (max 0 r.volumeZScoreShort)
        (max 0 r.volumeZScoreLong)))) / z_score_threshold) ≤ 1 := by
    rw [div_le_one hd]
    have : (0:ℚ) ≤ max |r.returnZScoreShort| (max |r.returnZScoreLong|
        (max |r.priceZScoreLong| (max (max 0 r.volumeZScoreShort)
          (max 0 r.volumeZScoreLong)))) / z_score_threshold := by
      apply div_nonneg hmz
      norm_num [z_score_threshold]
    linarith
  linarith

theorem detect_zscore_score_le_one (r : Row) :
    (detect_zscore_anomalies r).anomaly_score ≤ 1 := by
  have hmz := max_z_nonneg r
  simp only [detect_zscore_anomalies]
  have hd : (0:ℚ) < 1 + max |r.returnZScoreShort| (max |r.returnZScoreLong|
      (max |r.priceZScoreLong| (max (max 0 r.volumeZScoreShort)
        (max 0 r.volumeZScoreLong)))) / z_score_threshold := by
    have : (0:ℚ) ≤ max |r.returnZScoreShort| (max |r.returnZScoreLong|
        (max |r.priceZScoreLong| (max (max 0 r.volumeZScoreShort)
          (max 0 r.volumeZScoreLong)))) / z_score_threshold := by
      apply div_nonneg hmz
      norm_num [z_score_threshold]
    linarith
  have : 0 ≤ 1 / (1 + max |r.returnZScoreShort| (max |r.returnZScoreLong|
      (max |r.priceZScoreLong| (max (max 0 r.volumeZScoreShort)
        (max 0 r.volumeZScoreLong)))) / z_score_threshold) :=
    le_of_lt (by positivity)
  linarith

theorem detect_volatility_score_nonneg (r : Row) (h : 0 ≤ r.atrPercent) :
    0 ≤ (detect_volatility_anomalies r).anomaly_score := by
  simp only [detect_volatility_anomalies]
  have h1 : (0:ℚ) ≤ |r.keltnerPosition - 1/2| * 2 := by positivity
  have h2 : (0:ℚ) ≤ min (r.atrPercent / 10) 1 :=
    le_min (by positivity) (by norm_num)
  refine le_min (by linarith) (by norm_num)

theorem detect_volatility_score_le_one (r : Row) :
    (detect_volatility_anomalies r).anomaly_score ≤ 1 := by
  simp only [detect_volatility_anomalies]
  exact min_le_right _ _

theorem detect_surge_score_nonneg (r : Row) (h : 0 ≤ r.volumeSurgeFactor) :
    0 ≤ (detect_surge_anomalies r).anomaly_score := by
  simp only [detect_surge_anomalies]
  have h1 : (0:ℚ) ≤ min (r.volumeSurgeFactor / volume_surge_moderate) 2 := by
    refine le_min ?_ (by norm_num)
    apply div_nonneg h
    norm_num [volume_surge_moderate]
  have : (0:ℚ) ≤ min (r.volumeSurgeFactor / volume_surge_moderate) 2 / 2 := by linarith
  exact le_trans this (le_max_right _ _)

theorem detect_surge_score_le_one (r : Row) :
    (detect_surge_anomalies r).anomaly_score ≤ 1 := by
  simp only [detect_surge_anomalies]
  have h1 : min (|r.priceChange7d| / price_surge_7d_threshold) 2 / 2 ≤ 1 := by
    have := min_le_right (|r.priceChange7d| / price_surge_7d_threshold) (2:ℚ)
    linarith
  have h2 : min (r.volumeSurgeFactor / volume_surge_moderate) 2 / 2 ≤ 1 := by
    have := min_le_right (r.volumeSurgeFactor / volume_surge_moderate) (2:ℚ)
    linarith
  exact max_le h1 h2

theorem detect_pattern_score_nonneg (rows : List Row) (lookback : ℕ) :
    0 ≤ (detect_pattern_anomalies rows lookback).anomaly_score := by
  simp only [detect_pattern_anomalies]
  split
  · norm_num
  · exact le_min (by positivity) (by norm_num)

theorem detect_pattern_score_le_one (rows : List Row) (lookback : ℕ) :
    (detect_pattern_anomalies rows lookback).anomaly_score ≤ 1 := by
  simp only [detect_pattern_anomalies]
  split
  · norm_num
  · exact min_le_right _ _

theorem aggregate_score_le_one (z v : DetectorResult) (s : SurgeResult)
    (p : PatternResult) (news : Bool) (sens : ℚ) :
    (aggregate_anomalies z v s p news sens).anomaly_score ≤ 1 := by
  simp only [aggregate_anomalies]
  set c := min ((z.anomaly_score * (25/100) + v.anomaly_score * (2/10) +
    s.anomaly_score * (35/100) + p.anomaly_score * (2/10)) * sens) 1 with hc
  have hcle : c ≤ 1 := min_le_right _ _
  split
  · rename_i hd
    have hpos : (3:ℚ)/10 < c := hd.2
    nlinarith
  · exact hcle

theorem aggregate_score_nonneg (z v : DetectorResult) (s : SurgeResult)
    (p : PatternResult) (news : Bool) (sens : ℚ)
    (hz : 0 ≤ z.anomaly_score) (hv : 0 ≤ v.anomaly_score)
    (hs : 0 ≤ s.anomaly_score) (hp : 0 ≤ p.anomaly_score) (hsens : 0 ≤ sens) :
    0 ≤ (aggregate_anomalies z v s p news sens).anomaly_score := by
  simp only [aggregate_anomalies]
  have hws : (0:ℚ) ≤ (z.anomaly_score * (25/100) + v.anomaly_score * (2/10) +
      s.anomaly_score * (35/100) + p.anomaly_score * (2/10)) * sens := by
    apply mul_nonneg _ hsens
    nlinarith
  have hc : (0:ℚ) ≤ min ((z.anomaly_score * (25/100) + v.anomaly_score * (2/10) +
      s.anomaly_score * (35/100) + p.anomaly_score * (2/10)) * sens) 1 :=
    le_min hws (by norm_num)
  split
  · nlinarith
  · exact hc

theorem detect_anomalies_score_le_one (rows : List Row) (news : Bool) (sens : ℚ) :
    (detect_anomalies rows news sens).anomaly_score ≤ 1 := by
  simp only [detect_anomalies]
  exact aggregate_score_le_one _ _ _ _ _ _

theorem detect_anomalies_score_nonneg (rows : List Row) (news : Bool) (sens : ℚ)
    (hatr : 0 ≤ (rows.getLastD defaultRow).atrPercent)
    (hvsf : 0 ≤ (rows.getLastD defaultRow).volumeSurgeFactor)
    (hsens : 0 ≤ sens) :
    0 ≤ (detect_anomalies rows news sens).anomaly_score := by
  simp only [detect_anomalies]
  exact aggregate_score_nonneg _ _ _ _ _ _
    (detect_zscore_score_nonneg _)
    (detect_volatility_score_nonneg _ hatr)
    (detect_surge_score_nonneg _ hvsf)
    (detect_pattern_score_nonneg _ _)
    hsens

theorem ml_prob_nonneg (rf : ℚ) (lstm : Option ℚ) (hrf : 0 ≤ rf)
    (hl : ∀ l, lstm = some l → 0 ≤ l) : 0 ≤ ml_prob rf lstm := by
  cases lstm with
  | none => simpa [ml_prob] using hrf
  | some l =>
      have := hl l rfl
      simp only [ml_prob, use_max_strategy, rf_weight, lstm_weight, if_neg Bool.false_ne_true]
      nlinarith

theorem ml_prob_le_one (rf : ℚ) (lstm : Option ℚ) (hrf : rf ≤ 1)
    (hl : ∀ l, lstm = some l → l ≤ 1) : ml_prob rf lstm ≤ 1 := by
  cases lstm with
  | none => simpa [ml_prob] using hrf
  | some l =>
      have := hl l rfl
      simp only [ml_prob, use_max_strategy, rf_weight, lstm_weight, if_neg Bool.false_ne_true]
      nlinarith

theorem combine_predictions_le_one (rf : ℚ) (lstm : Option ℚ)
    (ar : AnomalyResult) (sec otc micro : Bool) :
    combine_predictions rf lstm ar sec otc micro ≤ 1 := by
  simp only [combine_predictions]
  exact min_le_right _ _

theorem combine_predictions_ge_anomaly (rf : ℚ) (lstm : Option ℚ)
    (ar : AnomalyResult) (sec otc micro : Bool)
    (h : ar.anomaly_score ≤ 1) :
    ar.anomaly_score ≤ combine_predictions rf lstm ar sec otc micro := by
  simp only [combine_predictions]
  refine le_min ?_ h
  refine le_trans ?_ (floor_step_ge _ _ _)
  refine le_trans ?_ (floor_step_ge _ _ _)
  refine le_trans ?_ (floor_step_ge _ _ _)
  refine le_trans ?_ (floor_step_ge _ _ _)
  refine le_trans ?_ (floor_step_ge _ _ _)
  refine le_trans ?_ (floor_step_ge _ _ _)
  refine le_trans ?_ (floor_step_ge _ _ _)
  refine le_trans ?_ (floor_step_ge _ _ _)
  refine le_trans ?_ (floor_step_ge _ _ _)
  exact le_max_left _ _

theorem combine_predictions_base_ge (rf : ℚ) (lstm : Option ℚ)
    (ar : AnomalyResult) (sec otc micro : Bool) :
    min (max ar.anomaly_score
      (ar.anomaly_score * (7/10) + ml_prob rf lstm * (3/10))) 1 ≤
      combine_predictions rf lstm ar sec otc micro := by
  simp only [combine_predictions]
  refine min_le_min ?_ le_rfl
  refine le_trans ?_ (floor_step_ge _ _ _)
  refine le_trans ?_ (floor_step_ge _ _ _)
  refine le_trans ?_ (floor_step_ge _ _ _)
  refine le_trans ?_ (floor_step_ge _ _ _)
  refine le_trans ?_ (floor_step_ge _ _ _)
  refine le_trans ?_ (floor_step_ge _ _ _)
  refine le_trans ?_ (floor_step_ge _ _ _)
  refine le_trans ?_ (floor_step_ge _ _ _)
  refine le_trans ?_ (floor_step_ge _ _ _)
  exact le_rfl

theorem combine_predictions_nonneg (rf : ℚ) (lstm : Option ℚ)
    (ar : AnomalyResult) (sec otc micro : Bool)
    (hrf : 0 ≤ rf) (hl : ∀ l, lstm = some l → 0 ≤ l)
    (ha : 0 ≤ ar.anomaly_score) :
    0 ≤ combine_predictions rf lstm ar sec otc micro := by
  have hml := ml_prob_nonneg rf lstm hrf hl
  simp only [combine_predictions]
  refine le_min ?_ (by norm_num)
  refine le_trans ?_ (floor_step_ge _ _ _)
  refine le_trans ?_ (floor_step_ge _ _ _)
  refine le_trans ?_ (floor_step_ge _ _ _)
  refine le_trans ?_ (floor_step_ge _ _ _)
  refine le_trans ?_ (floor_step_ge _ _ _)
  refine le_trans ?_ (floor_step_ge _ _ _)
  refine le_trans ?_ (floor_step_ge _ _ _)
  refine le_trans ?_ (floor_step_ge _ _ _)
  refine le_trans ?_ (floor_step_ge _ _ _)
  exact le_trans ha (le_max_left _ _)

theorem combine_predictions_sec_ge (rf : ℚ) (lstm : Option ℚ)
    (ar : AnomalyResult) (otc micro : Bool) :
    85/100 ≤ combine_predictions rf lstm ar true otc micro := by
  simp only [combine_predictions]
  refine le_min ?_ (by norm_num)
  refine le_trans ?_ (floor_step_ge _ _ _)
  refine le_trans ?_ (floor_step_ge _ _ _)
  refine le_trans ?_ (floor_step_ge _ _ _)
  refine le_trans ?_ (floor_step_ge _ _ _)
  refine le_trans ?_ (floor_step_ge _ _ _)
  refine le_trans ?_ (floor_step_ge _ _ _)
  refine le_trans ?_ (floor_step_ge _ _ _)
  refine le_trans ?_ (floor_step_ge _ _ _)
  exact floor_step_floor _ trivial
theorem signals_alert_code (feat : FeatVec) (f : Fundamentals) (sec : Bool)
    (ar : AnomalyResult) (rows : List Row) :
    ((compute_signals feat f sec ar rows).any
      (fun s => s.code == "ALERT_LIST_HIT")) = sec := by
  simp only [compute_signals, List.any_append, any_sblock, any_sblock2, any_sblock3]
  simp only [String.reduceBEq]
  simp only [ite_self, Bool.false_or, Bool.or_false]
  cases sec <;> simp

theorem signals_alert_category (feat : FeatVec) (f : Fundamentals) (sec : Bool)
    (ar : AnomalyResult) (rows : List Row) :
    ((compute_signals feat f sec ar rows).any
      (fun s => s.category == "ALERT")) = sec := by
  simp only [compute_signals, List.any_append, any_sblock, any_sblock2, any_sblock3]
  simp only [String.reduceBEq]
  simp only [ite_self, Bool.false_or, Bool.or_false]
  cases sec <;> simp

theorem signals_total_ge_of_sec (feat : FeatVec) (f : Fundamentals)
    (ar : AnomalyResult) (rows : List Row) :
    5 ≤ ((compute_signals feat f true ar rows).map SignalDetail.weight).sum := by
  simp only [compute_signals, List.map_append, List.sum_append,
    wsum_sblock, wsum_sblock2, wsum_sblock3]
  simp only [if_pos trivial]
  omega

theorem calibrate_priority_le_two (p : ℚ) :
    risk_priority (calibrate_probability p) ≤ 2 := by
  simp only [calibrate_probability, risk_priority]
  split_ifs <;> simp_all

theorem calibrate_mem (p : ℚ) :
    calibrate_probability p = "LOW" ∨ calibrate_probability p = "MEDIUM" ∨
      calibrate_probability p = "HIGH" := by
  simp only [calibrate_probability]
  split_ifs <;> simp

theorem signal_risk_level_eq_total (I : CoreInput) :
    signal_risk_levelOf I =
      if signal_total_scoreOf I ≥ 5 then "HIGH"
      else if signal_total_scoreOf I ≥ 2 then "MEDIUM"
      else "LOW" := by
  have halert : (signalsOf I).any (fun s => s.code == "ALERT_LIST_HIT") = I.sec_flagged := by
    simp only [signalsOf]
    exact signals_alert_code _ _ _ _ _
  unfold signal_risk_levelOf
  rw [halert]
  cases hsec : I.sec_flagged with
  | false => rw [if_neg Bool.false_ne_true]
  | true =>
      have htot : 5 ≤ signal_total_scoreOf I := by
        have hsig : signalsOf I = compute_signals
            (featureVectorOf (I.rows.getLastD defaultRow)) I.fundamentals true
            (anomalyResultOf I) I.rows := by
          simp only [signalsOf, hsec]
        simp only [signal_total_scoreOf, hsig]
        exact signals_total_ge_of_sec _ _ _ _
      rw [if_pos rfl, if_pos htot]

theorem signal_risk_level_mem (I : CoreInput) :
    signal_risk_levelOf I = "LOW" ∨ signal_risk_levelOf I = "MEDIUM" ∨
      signal_risk_levelOf I = "HIGH" := by
  rw [signal_risk_level_eq_total]
  split_ifs <;> simp

theorem max_severity_comm3 (a b : String)
    (ha : a = "LOW" ∨ a = "MEDIUM" ∨ a = "HIGH")
    (hb : b = "LOW" ∨ b = "MEDIUM" ∨ b = "HIGH") :
    max_severity a b = max_severity b a := by
  rcases ha with rfl | rfl | rfl <;> rcases hb with rfl | rfl | rfl <;>
    simp [max_severity, risk_priority]

/-- Claim C1: with the SEC flag set, whatever every other input is, the core
assessment is HIGH risk with combined probability at least 0.85. -/
theorem C1_sec_flag_forces_high (rows : List Row) (f : Fundamentals)
    (news : Bool) (rf : ℚ) (lstm : Option ℚ) :
    risk_levelOf ⟨rows, f, true, news, rf, lstm⟩ = "HIGH" ∧
    85/100 ≤ combined_probabilityOf ⟨rows, f, true, news, rf, lstm⟩ := by
  constructor
  · have halert : (signalsOf ⟨rows, f, true, news, rf, lstm⟩).any
        (fun s => s.code == "ALERT_LIST_HIT") = true := by
      simp only [signalsOf]
      exact signals_alert_code _ _ _ _ _
    have hsig : signal_risk_levelOf ⟨rows, f, true, news, rf, lstm⟩ = "HIGH" := by
      unfold signal_risk_levelOf
      rw [halert, if_pos rfl]
    have hml : risk_priority (ml_risk_levelOf ⟨rows, f, true, news, rf, lstm⟩) ≤ 2 := by
      unfold ml_risk_levelOf
      exact calibrate_priority_le_two _
    have h2 : risk_priority "HIGH" = 2 := by simp [risk_priority]
    unfold risk_levelOf
    rw [hsig, if_pos]
    rw [h2]
    exact hml
  · exact combine_predictions_sec_ge _ _ _ _ _

/-- Claim C2: with both supplied model probabilities in the unit interval
(and the latest engineered ATR-percent and volume-surge values non-negative,
as every engineered price table satisfies), the fused combined probability
lies in the unit interval, and the final core risk level is a function of
the combined probability and the signal total score alone. -/
theorem C2_range_and_total_function (I : CoreInput)
    (hrf0 : 0 ≤ I.rf_prob) (hrf1 : I.rf_prob ≤ 1)
    (hl : ∀ l, I.lstm_prob = some l → 0 ≤ l ∧ l ≤ 1)
    (hatr : 0 ≤ (I.rows.getLastD defaultRow).atrPercent)
    (hvsf : 0 ≤ (I.rows.getLastD defaultRow).volumeSurgeFactor) :
    0 ≤ combined_probabilityOf I ∧ combined_probabilityOf I ≤ 1 ∧
    risk_levelOf I = risk_from_prob_and_score (combined_probabilityOf I)
      (signal_total_scoreOf I) := by
  refine ⟨?_, ?_, ?_⟩
  · unfold combined_probabilityOf
    refine combine_predictions_nonneg _ _ _ _ _ _ hrf0
      (fun l h => (hl l h).1) ?_
    unfold anomalyResultOf
    exact detect_anomalies_score_nonneg _ _ _ hatr hvsf (by norm_num)
  · unfold combined_probabilityOf
    exact combine_predictions_le_one _ _ _ _ _ _
  · unfold risk_from_prob_and_score
    rw [← signal_risk_level_eq_total I]
    unfold risk_levelOf max_severity ml_risk_levelOf
    rfl

/-- Claim C5: the final core risk level is the higher-severity of the
probability-based verdict (thresholds 0.3 and 0.7) and the signal-based
verdict (ALERT-category signal forces HIGH, else weight thresholds 5 and 2). -/
theorem C5_risk_merge (I : CoreInput) :
    risk_levelOf I = max_severity (prob_verdict_spec (combined_probabilityOf I))
      (signal_verdict_spec (signalsOf I)) := by
  have hcat : (signalsOf I).any (fun s => s.category == "ALERT") = I.sec_flagged := by
    simp only [signalsOf]
    exact signals_alert_category _ _ _ _ _
  have halert : (signalsOf I).any (fun s => s.code == "ALERT_LIST_HIT") = I.sec_flagged := by
    simp only [signalsOf]
    exact signals_alert_code _ _ _ _ _
  have hspec : signal_verdict_spec (signalsOf I) = signal_risk_levelOf I := by
    unfold signal_verdict_spec signal_risk_levelOf
    rw [hcat, halert]
    rfl
  have hprob : prob_verdict_spec (combined_probabilityOf I) = ml_risk_levelOf I := by
    unfold prob_verdict_spec ml_risk_levelOf calibrate_probability
      risk_threshold_low risk_threshold_medium
    rfl
  rw [hspec, hprob]
  have hmlmem : ml_risk_levelOf I = "LOW" ∨ ml_risk_levelOf I = "MEDIUM" ∨
      ml_risk_levelOf I = "HIGH" := by
    unfold ml_risk_levelOf
    exact calibrate_mem _
  rw [max_severity_comm3 _ _ hmlmem (signal_risk_level_mem I)]
  unfold risk_levelOf max_severity
  rfl

/-- Claim C4: before the floor cascade the fused value equals
max(anomaly_score, 0.7 anomaly_score + 0.3 ml_prob) (clamped by the final
min with 1), so the fused probability never drops below the anomaly score:
stated for combine_predictions on any anomaly result with score at most 1,
and for the full pipeline, whose anomaly scores are always at most 1. -/
theorem C4_anomaly_floor (rf : ℚ) (lstm : Option ℚ) (ar : AnomalyResult)
    (sec otc micro : Bool) (h : ar.anomaly_score ≤ 1) :
    min (max ar.anomaly_score
        (ar.anomaly_score * (7/10) + ml_prob rf lstm * (3/10))) 1 ≤
      combine_predictions rf lstm ar sec otc micro ∧
    ar.anomaly_score ≤ combine_predictions rf lstm ar sec otc micro ∧
    ∀ I : CoreInput, (anomalyResultOf I).anomaly_score ≤ combined_probabilityOf I := by
  refine ⟨combine_predictions_base_ge _ _ _ _ _ _,
    combine_predictions_ge_anomaly _ _ _ _ _ _ h, ?_⟩
  intro I
  unfold combined_probabilityOf
  refine combine_predictions_ge_anomaly _ _ _ _ _ _ ?_
  unfold anomalyResultOf
  exact detect_anomalies_score_le_one _ _ _

/-- Claim C4 witness at a concrete anomaly result. -/
theorem C4_anomaly_floor_witness :
    (1/5 : ℚ) ≤ combine_predictions 0 none
      ⟨false, 1/5, [], ⟨false, 0, [], 0, 0, 0, 1, false⟩⟩ false false false :=
  (C4_anomaly_floor 0 none _ false false false (by norm_num)).2.1

/-- Claim C6: on fixed detector results, when the sensitivity-scaled clamped
combined score (the no-news score) exceeds 0.3, enabling the news flag
multiplies the score by exactly 0.6 and filters out exactly the
daily_price_surge and weekly_price_pump tags; when it is at most 0.3,
enabling the news flag changes nothing about the result. -/
theorem C6_news_dampening (z v : DetectorResult) (s : SurgeResult)
    (p : PatternResult) (sens : ℚ) :
    ((aggregate_anomalies z v s p false sens).anomaly_score > 3/10 →
      (aggregate_anomalies z v s p true sens).anomaly_score =
        (aggregate_anomalies z v s p false sens).anomaly_score * (6/10) ∧
      (aggregate_anomalies z v s p true sens).anomaly_types =
        (aggregate_anomalies z v s p false sens).anomaly_types.filter
          (fun t => ¬ (t = "daily_price_surge" ∨ t = "weekly_price_pump"))) ∧
    ((aggregate_anomalies z v s p false sens).anomaly_score ≤ 3/10 →
      aggregate_anomalies z v s p true sens =
        aggregate_anomalies z v s p false sens) := by
  simp only [aggregate_anomalies]
  set c := min ((z.anomaly_score * (25/100) + v.anomaly_score * (2/10) +
    s.anomaly_score * (35/100) + p.anomaly_score * (2/10)) * sens) 1 with hc
  have h1 : ¬ (false = true ∧ c > 3/10) := by simp
  rw [if_neg h1, if_neg h1]
  by_cases h2 : c > 3/10
  · have hpos : (True ∧ c > 3/10) := ⟨trivial, h2⟩
    rw [if_pos hpos, if_pos hpos]
    exact ⟨fun _ => ⟨rfl, rfl⟩, fun hle => absurd h2 (not_lt.mpr hle)⟩
  · have hneg : ¬ (True ∧ c > 3/10) := fun hx => h2 hx.2
    rw [if_neg hneg, if_neg hneg]
    exact ⟨fun hgt => absurd hgt h2, fun _ => rfl⟩

/-- Claim C6 witness: a surge-only profile with no-news score 0.315 is
dampened to 0.189 with the surge tags filtered, and one with score 0.2975
is left unchanged. -/
theorem C6_news_dampening_witness :
    ((aggregate_anomalies ⟨false, 0, []⟩ ⟨false, 0, []⟩
        ⟨true, 9/10, ["weekly_price_pump"], 0, 6000/100, 0, 1, false⟩
        ⟨false, 0, [], none⟩ true 1).anomaly_score = 189/1000 ∧
      (aggregate_anomalies ⟨false, 0, []⟩ ⟨false, 0, []⟩
        ⟨true, 9/10, ["weekly_price_pump"], 0, 6000/100, 0, 1, false⟩
        ⟨false, 0, [], none⟩ true 1).anomaly_types = []) ∧
    aggregate_anomalies ⟨false, 0, []⟩ ⟨false, 0, []⟩
        ⟨true, 85/100, ["volume_explosion"], 0, 0, 0, 17/2, false⟩
        ⟨false, 0, [], none⟩ true 1 =
      aggregate_anomalies ⟨false, 0, []⟩ ⟨false, 0, []⟩
        ⟨true, 85/100, ["volume_explosion"], 0, 0, 0, 17/2, false⟩
        ⟨false, 0, [], none⟩ false 1 := by
  constructor
  · have h := (C6_news_dampening ⟨false, 0, []⟩ ⟨false, 0, []⟩
      ⟨true, 9/10, ["weekly_price_pump"], 0, 6000/100, 0, 1, false⟩
      ⟨false, 0, [], none⟩ 1).1 (by
        norm_num [aggregate_anomalies, min_def])
    refine ⟨?_, ?_⟩
    · rw [h.1]
      norm_num [aggregate_anomalies, min_def]
    · rw [h.2]
      norm_num [aggregate_anomalies, min_def]
  · exact (C6_news_dampening ⟨false, 0, []⟩ ⟨false, 0, []⟩
      ⟨true, 85/100, ["volume_explosion"], 0, 0, 0, 17/2, false⟩
      ⟨false, 0, [], none⟩ 1).2 (by
        norm_num [aggregate_anomalies, min_def])

/-- Claim C7 counterexample: at Keltner position 2.5 with zero ATR, the
source volatility score is 1 (the source clamps the average), while the
claimed average of individually clamped terms is 1/2. -/
theorem C7_counterexample :
    (detect_volatility_anomalies { defaultRow with keltnerPosition := 5/2 }).anomaly_score = 1 ∧
    volatility_score_claimC7 { defaultRow with keltnerPosition := 5/2 } = 1/2 ∧
    (detect_volatility_anomalies { defaultRow with keltnerPosition := 5/2 }).anomaly_score ≠
      volatility_score_claimC7 { defaultRow with keltnerPosition := 5/2 } := by
  norm_num [detect_volatility_anomalies, volatility_score_claimC7, defaultRow,
    min_def, abs_eq_max_neg, max_def]

/-- Claim C7 amended: the volatility score is the average of the unclamped
position deviation and the clamped ATR factor, with the average itself
clamped to 1. -/
theorem C7_amended (r : Row) :
    (detect_volatility_anomalies r).anomaly_score =
      min ((|r.keltnerPosition - 1/2| * 2 + min (r.atrPercent / 10) 1) / 2) 1 := rfl

/-- Claim C9: with fewer rows than the 14-row lookback, the pattern detector
returns the zero/no-op result with its explanatory note (and, being a total
function, raises nothing). -/
theorem C9_insufficient_history (rows : List Row) (h : rows.length < 14) :
    detect_pattern_anomalies rows 14 =
      { is_anomaly := false, anomaly_score := 0, anomaly_types := [],
        pattern_note := some "Insufficient data for pattern analysis" } := by
  simp only [detect_pattern_anomalies]
  rw [if_pos h]

/-- Claim C9 witness on the empty table. -/
theorem C9_insufficient_history_witness :
    ([] : List Row).length < 14 ∧
    detect_pattern_anomalies [] 14 =
      { is_anomaly := false, anomaly_score := 0, anomaly_types := [],
        pattern_note := some "Insufficient data for pattern analysis" } :=
  ⟨by norm_num, C9_insufficient_history [] (by norm_num)⟩

/-- Claim C8: a NaN rf probability is not rejected: the source has no raise
path, and the Python max comparison silently drops the NaN blend term, so
the fusion returns the anomaly-floor value as if no ML input existed. -/
theorem C8_nan_probability_not_rejected :
    combine_predictions_py PyFloat.nan none
      ⟨false, 1/5, [], ⟨false, 0, [], 0, 0, 0, 1, false⟩⟩ false false false =
      PyFloat.val (1/5) := by
  norm_num [combine_predictions_py, ml_prob_py, pyMax, pyMin, pyAdd, pyMul,
    pyLt, severe_anomalies, use_max_strategy]

theorem length_setLast (u : Row → Row) (l : List Row) :
    (setLast u l).length = l.length := by
  induction l with
  | nil => rfl
  | cons r rest ih =>
      cases rest with
      | nil => rfl
      | cons r2 rest2 => simp only [setLast, List.length_cons] at ih ⊢; omega

theorem getLast?_setLast (u : Row → Row) (l : List Row) :
    (setLast u l).getLast? = l.getLast?.map u := by
  induction l with
  | nil => rfl
  | cons r rest ih =>
      cases rest with
      | nil => rfl
      | cons r2 rest2 =>
          cases hs : setLast u (r2 :: rest2) with
          | nil =>
              have hlen := length_setLast u (r2 :: rest2)
              rw [hs] at hlen
              simp at hlen
          | cons a as =>
              simp only [setLast]
              rw [hs, List.getLast?_cons_cons, ← hs, ih, List.getLast?_cons_cons]

theorem getLastD_setLast (u : Row → Row) (l : List Row) (d : Row) (h : l ≠ []) :
    (setLast u l).getLastD d = u (l.getLastD d) := by
  cases hxl : l.getLast? with
  | none => exact absurd (List.getLast?_eq_none_iff.mp hxl) h
  | some x =>
      rw [List.getLastD_eq_getLast?, List.getLastD_eq_getLast?,
        getLast?_setLast, hxl]
      rfl

theorem drop_setLast (u : Row → Row) (l : List Row) (k : ℕ) :
    (setLast u l).drop k = setLast u (l.drop k) := by
  induction l generalizing k with
  | nil => cases k <;> rfl
  | cons r rest ih =>
      cases rest with
      | nil =>
          cases k with
          | zero => rfl
          | succ k2 =>
              show List.drop (k2+1) [u r] = setLast u (List.drop (k2+1) [r])
              rw [List.drop_succ_cons, List.drop_succ_cons, List.drop_nil]
              rfl
      | cons r2 rest2 =>
          cases k with
          | zero => rfl
          | succ k2 =>
              simp only [setLast, List.drop_succ_cons]
              exact ih k2

theorem map_setLast_eq {α : Type} (u : Row → Row) (proj : Row → α)
    (hp : ∀ r, proj (u r) = proj r) (l : List Row) :
    (setLast u l).map proj = l.map proj := by
  induction l with
  | nil => rfl
  | cons r rest ih =>
      cases rest with
      | nil => simp [setLast, hp]
      | cons r2 rest2 =>
          simp only [setLast, List.map_cons] at ih ⊢
          rw [ih]

theorem countP_setLast_le (p : Row → Bool) (u w : Row → Row)
    (h : ∀ r, p (u r) = true → p (w r) = true) (l : List Row) :
    (setLast u l).countP p ≤ (setLast w l).countP p := by
  induction l with
  | nil => exact le_rfl
  | cons r rest ih =>
      cases rest with
      | nil =>
          simp only [setLast, List.countP_cons, List.countP_nil]
          cases hu : p (u r) with
          | false => simp
          | true => simp [hu, h r hu]
      | cons r2 rest2 =>
          simp only [setLast, List.countP_cons]
          exact add_le_add ih le_rfl

theorem mem_iteList {α : Type} (c : Prop) [Decidable c] (a t : α) :
    t ∈ (if c then [a] else ([] : List α)) ↔ c ∧ t = a := by
  split <;> simp_all

theorem mem_iteList2 {α : Type} (c1 : Prop) [Decidable c1] (c2 : Prop) [Decidable c2]
    (a b t : α) :
    t ∈ (if c1 then [a] else if c2 then [b] else ([] : List α)) ↔
      (c1 ∧ t = a) ∨ (¬ c1 ∧ c2 ∧ t = b) := by
  split <;> [skip; split] <;> simp_all

theorem mem_iteNested {α : Type} (c d : Prop) [Decidable c] [Decidable d] (a b t : α) :
    t ∈ (if c then (if d then [a] else [b]) else ([] : List α)) ↔
      c ∧ ((d ∧ t = a) ∨ (¬ d ∧ t = b)) := by
  split <;> [split; skip] <;> simp_all

theorem length_iteList {α : Type} (c : Prop) [Decidable c] (a : α) :
    (if c then [a] else ([] : List α)).length = if c then 1 else 0 := by
  split <;> simp

theorem length_iteList2 {α : Type} (c1 : Prop) [Decidable c1] (c2 : Prop) [Decidable c2]
    (a b : α) :
    (if c1 then [a] else if c2 then [b] else ([] : List α)).length =
      if c1 ∨ c2 then 1 else 0 := by
  split <;> [skip; split] <;> simp_all

theorem length_iteNested {α : Type} (c d : Prop) [Decidable c] [Decidable d] (a b : α) :
    (if c then (if d then [a] else [b]) else ([] : List α)).length =
      if c then 1 else 0 := by
  split <;> [split; skip] <;> simp_all

theorem ite_one_zero_mono {P Q : Prop} [Decidable P] [Decidable Q] (h : P → Q) :
    (if P then (1:ℕ) else 0) ≤ if Q then 1 else 0 := by
  by_cases hp : P
  · rw [if_pos hp, if_pos (h hp)]
  · rw [if_neg hp]
    exact Nat.zero_le _

theorem DetLE_refl (d : DetectorResult) : DetLE d d :=
  ⟨le_rfl, le_rfl, fun _ _ h => h⟩

theorem zscore_normalized_mono {x y : ℚ} (hx : 0 ≤ x) (hxy : x ≤ y) :
    1 - 1 / (1 + x / z_score_threshold) ≤ 1 - 1 / (1 + y / z_score_threshold) := by
  have h3 : (0:ℚ) < z_score_threshold := by norm_num [z_score_threshold]
  have hx3 : (0:ℚ) ≤ x / z_score_threshold := div_nonneg hx h3.le
  have hdx : (0:ℚ) < 1 + x / z_score_threshold := by linarith
  have hdy : 1 + x / z_score_threshold ≤ 1 + y / z_score_threshold := by
    have : x / z_score_threshold ≤ y / z_score_threshold :=
      div_le_div_of_nonneg_right hxy h3.le
    linarith
  have := one_div_le_one_div_of_le hdx hdy
  linarith

theorem detect_zscore_detLE (r r' : Row)
    (h1 : |r.returnZScoreShort| ≤ |r'.returnZScoreShort|)
    (h2 : |r.returnZScoreLong| ≤ |r'.returnZScoreLong|)
    (h3 : |r.priceZScoreLong| ≤ |r'.priceZScoreLong|)
    (h4 : r.volumeZScoreShort ≤ r'.volumeZScoreShort)
    (h5 : r.volumeZScoreLong ≤ r'.volumeZScoreLong) :
    DetLE (detect_zscore_anomalies r) (detect_zscore_anomalies r') := by
  refine ⟨?_, ?_, ?_⟩
  · simp only [detect_zscore_anomalies]
    refine zscore_normalized_mono (max_z_nonneg r) ?_
    exact max_le_max h1 (max_le_max h2 (max_le_max h3
      (max_le_max (max_le_max le_rfl h4) (max_le_max le_rfl h5))))
  · simp only [detect_zscore_anomalies, List.length_append, length_iteList]
    refine add_le_add (add_le_add (add_le_add (add_le_add
      (ite_one_zero_mono ?_) (ite_one_zero_mono ?_)) (ite_one_zero_mono ?_))
      (ite_one_zero_mono ?_)) (ite_one_zero_mono ?_)
    · exact fun h => lt_of_lt_of_le h h1
    · exact fun h => lt_of_lt_of_le h h2
    · exact fun h => lt_of_lt_of_le h h3
    · exact fun h => lt_of_lt_of_le h h4
    · exact fun h => lt_of_lt_of_le h h5
  · intro t htsev htm
    simp only [severe_anomalies, List.mem_cons, List.not_mem_nil, or_false] at htsev
    rcases htsev with rfl | rfl | rfl | rfl | rfl | rfl <;>
      simp [detect_zscore_anomalies, List.mem_append, mem_iteList] at htm

theorem mem_iteListBoth {α : Type} (c : Prop) [Decidable c] (a b t : α) :
    t ∈ (if c then [a] else [b]) ↔ (c ∧ t = a) ∨ (¬ c ∧ t = b) := by
  split <;> simp_all

theorem surge_mem_iff (r : Row) (t : String) :
    t ∈ (detect_surge_anomalies r).anomaly_types ↔
      (|r.priceChange1d| > price_surge_1d_threshold ∧ t = "daily_price_surge") ∨
      (|r.priceChange7d| > price_surge_7d_threshold ∧
        ((r.priceChange7d > 0 ∧ t = "weekly_price_pump") ∨
         (¬ r.priceChange7d > 0 ∧ t = "weekly_price_dump"))) ∨
      (|r.priceChange7d| > price_surge_extreme ∧ t = "extreme_weekly_price_move") ∨
      ((r.volumeSurgeFactor ≥ volume_surge_extreme ∧ t = "extreme_volume_explosion") ∨
       (¬ r.volumeSurgeFactor ≥ volume_surge_extreme ∧
        r.volumeSurgeFactor ≥ volume_surge_moderate ∧ t = "volume_explosion")) ∨
      (r.pumpPattern ≠ 0 ∧ t = "pump_pattern_detected") := by
  simp only [detect_surge_anomalies, List.mem_append, mem_iteList,
    mem_iteNested, mem_iteList2]
  simp only [or_assoc]

theorem detect_surge_surgeLE (r r' : Row)
    (hpc7 : |r.priceChange7d| ≤ |r'.priceChange7d|)
    (hpc1 : |r.priceChange1d| ≤ |r'.priceChange1d|)
    (hvsf : r.volumeSurgeFactor ≤ r'.volumeSurgeFactor)
    (hpp : r.pumpPattern = r'.pumpPattern) :
    SurgeLE (detect_surge_anomalies r) (detect_surge_anomalies r') := by
  refine ⟨?_, ?_, ?_, ?_⟩
  · simp only [detect_surge_anomalies, price_surge_7d_threshold,
      volume_surge_moderate]
    refine max_le_max ?_ ?_
    · have : |r.priceChange7d| / (1/2) ≤ |r'.priceChange7d| / (1/2) := by
        apply div_le_div_of_nonneg_right hpc7
        norm_num
      have hm : min (|r.priceChange7d| / (1/2)) 2 ≤ min (|r'.priceChange7d| / (1/2)) 2 :=
        min_le_min this le_rfl
      linarith
    · have : r.volumeSurgeFactor / 5 ≤ r'.volumeSurgeFactor / 5 := by
        apply div_le_div_of_nonneg_right hvsf
        norm_num
      have hm : min (r.volumeSurgeFactor / 5) 2 ≤ min (r'.volumeSurgeFactor / 5) 2 :=
        min_le_min this le_rfl
      linarith
  · simp only [detect_surge_anomalies, List.length_append, length_iteList,
      length_iteNested, length_iteList2, price_surge_1d_threshold,
      price_surge_7d_threshold, price_surge_extreme, volume_surge_moderate,
      volume_surge_extreme]
    refine add_le_add (add_le_add (add_le_add (add_le_add
      (ite_one_zero_mono ?_) (ite_one_zero_mono ?_)) (ite_one_zero_mono ?_))
      (ite_one_zero_mono ?_)) (ite_one_zero_mono ?_)
    · exact fun h => lt_of_lt_of_le h hpc1
    · exact fun h => lt_of_lt_of_le h hpc7
    · exact fun h => lt_of_lt_of_le h hpc7
    · rintro (h | h)
      · exact Or.inl (le_trans h hvsf)
      · exact Or.inr (le_trans h hvsf)
    · rw [hpp]
      exact id
  · intro t htsev htm
    simp only [severe_anomalies, List.mem_cons, List.not_mem_nil, or_false] at htsev
    rcases htsev with rfl | rfl | rfl | rfl | rfl | rfl
    · rw [surge_mem_iff] at htm
      simp at htm
    · rw [surge_mem_iff] at htm ⊢
      simp at htm ⊢
      rw [← hpp]
      exact htm
    · rw [surge_mem_iff] at htm ⊢
      simp at htm ⊢
      exact le_trans htm hvsf
    · rw [surge_mem_iff] at htm ⊢
      simp at htm ⊢
      exact lt_of_lt_of_le htm hpc7
    · rw [surge_mem_iff] at htm
      simp at htm
    · rw [surge_mem_iff] at htm
      simp at htm
  · have e1 : r.priceChange7d * 100 / 100 = r.priceChange7d :=
      mul_div_cancel_right₀ _ (by norm_num)
    have e2 : r'.priceChange7d * 100 / 100 = r'.priceChange7d :=
      mul_div_cancel_right₀ _ (by norm_num)
    simp only [detect_surge_anomalies, e1, e2]
    rintro (h | h)
    · exact Or.inl (lt_of_lt_of_le h hpc7)
    · exact Or.inr (lt_of_lt_of_le h hvsf)

theorem detect_pattern_patLE (uf ug : Row → Row) (rows : List Row)
    (hclose_f : ∀ r, (uf r).close = r.close) (hclose_g : ∀ r, (ug r).close = r.close)
    (hret_f : ∀ r, (uf r).ret = r.ret) (hret_g : ∀ r, (ug r).ret = r.ret)
    (hvol : ∀ r, (uf r).volumeSurgeFactor > 3 → (ug r).volumeSurgeFactor > 3)
    (hpc1 : ∀ r, |(uf r).priceChange1d| > 5/100 → |(ug r).priceChange1d| > 5/100) :
    (detect_pattern_anomalies (setLast uf rows) 14).anomaly_score ≤
      (detect_pattern_anomalies (setLast ug rows) 14).anomaly_score ∧
    (detect_pattern_anomalies (setLast uf rows) 14).anomaly_types.length ≤
      (detect_pattern_anomalies (setLast ug rows) 14).anomaly_types.length ∧
    (∀ t ∈ severe_anomalies,
      t ∈ (detect_pattern_anomalies (setLast uf rows) 14).anomaly_types →
      t ∈ (detect_pattern_anomalies (setLast ug rows) 14).anomaly_types) := by
  have hlf := length_setLast uf rows
  have hlg := length_setLast ug rows
  by_cases hlt : rows.length < 14
  · simp only [detect_pattern_anomalies, hlf, hlg, if_pos hlt]
    exact ⟨le_rfl, le_rfl, fun t _ h => h⟩
  · simp only [detect_pattern_anomalies, hlf, hlg, if_neg hlt,
      drop_setLast]
    have hpd : pumpAndDumpFlag ((setLast uf (rows.drop (rows.length - 14))).map Row.close) 14 =
        pumpAndDumpFlag ((setLast ug (rows.drop (rows.length - 14))).map Row.close) 14 := by
      rw [map_setLast_eq uf Row.close hclose_f, map_setLast_eq ug Row.close hclose_g]
    have hstreak : streakFlag ((setLast uf (rows.drop (rows.length - 14))).map Row.ret) 14 =
        streakFlag ((setLast ug (rows.drop (rows.length - 14))).map Row.ret) 14 := by
      rw [map_setLast_eq uf Row.ret hret_f, map_setLast_eq ug Row.ret hret_g]
    have hcoord : coordinatedFlag (setLast uf (rows.drop (rows.length - 14))) = true →
        coordinatedFlag (setLast ug (rows.drop (rows.length - 14))) = true := by
      intro h
      unfold coordinatedFlag at h ⊢
      simp only [decide_eq_true_eq] at h ⊢
      obtain ⟨h1, h2⟩ := h
      constructor
      · refine le_trans h1 (countP_setLast_le _ uf ug ?_ _)
        intro r hr
        simp only [decide_eq_true_eq] at hr ⊢
        exact hvol r hr
      · refine le_trans h2 (countP_setLast_le _ uf ug ?_ _)
        intro r hr
        simp only [decide_eq_true_eq] at hr ⊢
        exact hpc1 r hr
    have hlen : ((if pumpAndDumpFlag ((setLast uf (rows.drop (rows.length - 14))).map Row.close) 14
          then ["pump_and_dump_pattern"] else []) ++
        (if coordinatedFlag (setLast uf (rows.drop (rows.length - 14)))
          then ["coordinated_volume_price_activity"] else []) ++
        (if streakFlag ((setLast uf (rows.drop (rows.length - 14))).map Row.ret) 14
          then ["suspicious_positive_streak"] else [])).length ≤
        ((if pumpAndDumpFlag ((setLast ug (rows.drop (rows.length - 14))).map Row.close) 14
          then ["pump_and_dump_pattern"] else []) ++
        (if coordinatedFlag (setLast ug (rows.drop (rows.length - 14)))
          then ["coordinated_volume_price_activity"] else []) ++
        (if streakFlag ((setLast ug (rows.drop (rows.length - 14))).map Row.ret) 14
          then ["suspicious_positive_streak"] else [])).length := by
      simp only [List.length_append, length_iteList]
      refine add_le_add (add_le_add (ite_one_zero_mono ?_) (ite_one_zero_mono ?_))
        (ite_one_zero_mono ?_)
      · rw [hpd]
        exact id
      · exact hcoord
      · rw [hstreak]
        exact id
    refine ⟨?_, hlen, ?_⟩
    · have hq := (Nat.cast_le (α := ℚ)).mpr hlen
      refine min_le_min ?_ le_rfl
      nlinarith
    · intro t htsev htm
      simp only [severe_anomalies, List.mem_cons, List.not_mem_nil, or_false] at htsev
      simp only [List.mem_append, mem_iteList] at htm ⊢
      rcases htsev with rfl | rfl | rfl | rfl | rfl | rfl <;>
        [skip; simp at htm; simp at htm; simp at htm; skip; simp at htm]
      · rcases htm with (⟨hf, _⟩ | ⟨_, ht⟩) | ⟨_, ht⟩
        · rw [hpd] at hf
          exact Or.inl (Or.inl ⟨hf, rfl⟩)
        · exact absurd ht (by decide)
        · exact absurd ht (by decide)
      · rcases htm with (⟨_, ht⟩ | ⟨hf, _⟩) | ⟨_, ht⟩
        · exact absurd ht (by decide)
        · exact Or.inl (Or.inr ⟨hcoord hf, rfl⟩)
        · exact absurd ht (by decide)

theorem aggregate_false_score (z v : DetectorResult) (s : SurgeResult)
    (p : PatternResult) (sens : ℚ) :
    (aggregate_anomalies z v s p false sens).anomaly_score =
      min ((z.anomaly_score * (25/100) + v.anomaly_score * (2/10) +
        s.anomaly_score * (35/100) + p.anomaly_score * (2/10)) * sens) 1 := by
  simp only [aggregate_anomalies]
  set c := min ((z.anomaly_score * (25/100) + v.anomaly_score * (2/10) +
    s.anomaly_score * (35/100) + p.anomaly_score * (2/10)) * sens) 1 with hc
  rw [if_neg (show ¬ (false = true ∧ c > 3/10) by simp)]

theorem aggregate_false_types (z v : DetectorResult) (s : SurgeResult)
    (p : PatternResult) (sens : ℚ) :
    (aggregate_anomalies z v s p false sens).anomaly_types =
      z.anomaly_types ++ v.anomaly_types ++ s.anomaly_types ++ p.anomaly_types := by
  simp only [aggregate_anomalies]
  set c := min ((z.anomaly_score * (25/100) + v.anomaly_score * (2/10) +
    s.anomaly_score * (35/100) + p.anomaly_score * (2/10)) * sens) 1 with hc
  rw [if_neg (show ¬ (false = true ∧ c > 3/10) by simp)]

theorem aggregate_surge_analysis (z v : DetectorResult) (s : SurgeResult)
    (p : PatternResult) (news : Bool) (sens : ℚ) :
    (aggregate_anomalies z v s p news sens).surge_analysis = s := rfl

theorem aggregate_false_isAnomaly (z v : DetectorResult) (s : SurgeResult)
    (p : PatternResult) (sens : ℚ) :
    (aggregate_anomalies z v s p false sens).is_anomaly = true ↔
      (min ((z.anomaly_score * (25/100) + v.anomaly_score * (2/10) +
        s.anomaly_score * (35/100) + p.anomaly_score * (2/10)) * sens) 1 > 4/10 ∨
       (z.anomaly_types ++ v.anomaly_types ++ s.anomaly_types ++
         p.anomaly_types).length ≥ 3) := by
  simp only [aggregate_anomalies]
  set c := min ((z.anomaly_score * (25/100) + v.anomaly_score * (2/10) +
    s.anomaly_score * (35/100) + p.anomaly_score * (2/10)) * sens) 1 with hc
  rw [if_neg (show ¬ (false = true ∧ c > 3/10) by simp),
    if_neg (show ¬ (false = true ∧ c > 3/10) by simp)]
  simp only [decide_eq_true_eq]

theorem countP_id_five_le (a b c d e c2 d2 : Bool)
    (hc : c = true → c2 = true) (hd : d = true → d2 = true) :
    [a, b, c, d, e].countP id ≤ [a, b, c2, d2, e].countP id := by
  cases c <;> cases c2 <;> cases d <;> cases d2 <;>
    simp_all [List.countP_cons] <;> omega

theorem combine_predictions_mono (rf : ℚ) (lstm : Option ℚ)
    (ar ar2 : AnomalyResult) (sec otc micro : Bool)
    (hs : ar.anomaly_score ≤ ar2.anomaly_score)
    (hsev : severe_anomalies.any (fun a => decide (a ∈ ar.anomaly_types)) = true →
            severe_anomalies.any (fun a => decide (a ∈ ar2.anomaly_types)) = true)
    (hanom : ar.is_anomaly = true → ar2.is_anomaly = true)
    (hotc : (|ar.surge_analysis.price_change_7d_pct / 100| > 15/100 ∨
             ar.surge_analysis.volume_surge_factor > 5/2) →
            (|ar2.surge_analysis.price_change_7d_pct / 100| > 15/100 ∨
             ar2.surge_analysis.volume_surge_factor > 5/2)) :
    combine_predictions rf lstm ar sec otc micro ≤
      combine_predictions rf lstm ar2 sec otc micro := by
  have hcount : [otc, micro,
      severe_anomalies.any (fun a => decide (a ∈ ar.anomaly_types)),
      ar.is_anomaly, sec].countP id ≤ [otc, micro,
      severe_anomalies.any (fun a => decide (a ∈ ar2.anomaly_types)),
      ar2.is_anomaly, sec].countP id :=
    countP_id_five_le _ _ _ _ _ _ _ hsev hanom
  simp only [combine_predictions]
  refine min_le_min ?_ le_rfl
  refine floor_step_mono _ ?_ (fun h => le_trans h hcount)
  refine floor_step_mono _ ?_ (fun h => le_trans h hcount)
  refine floor_step_mono _ ?_ (fun h => ⟨hsev h.1, h.2⟩)
  refine floor_step_mono _ ?_ (fun h => ⟨hsev h.1, h.2⟩)
  refine floor_step_mono _ ?_ (fun h => ⟨hsev h.1, h.2⟩)
  refine floor_step_mono _ ?_ hsev
  refine floor_step_mono _ ?_ id
  refine floor_step_mono _ ?_ (fun h => ⟨h.1, hotc h.2⟩)
  refine floor_step_mono _ ?_ id
  exact max_le_max hs (add_le_add (mul_le_mul_of_nonneg_right hs (by norm_num)) le_rfl)

theorem monoUpdate_featureMono (upd : ℚ → Row → Row) (H : MonoUpdate upd) :
    FeatureMono upd := by
  intro rows f sec rf lstm v v' hv hvv
  cases rows with
  | nil => exact ⟨le_rfl, le_rfl⟩
  | cons r0 rest =>
      have hne : (r0 :: rest) ≠ [] := by simp
      have hz := H.zscore_le ((r0 :: rest).getLastD defaultRow) v v' hv hvv
      have hvol := H.volat_eq v v' ((r0 :: rest).getLastD defaultRow)
      have hsu := H.surge_le ((r0 :: rest).getLastD defaultRow) v v' hv hvv
      have hpat := detect_pattern_patLE (upd v) (upd v') (r0 :: rest)
        (H.close_eq v) (H.close_eq v') (H.ret_eq v) (H.ret_eq v')
        (fun r => H.volcount_imp r v v' hv hvv)
        (fun r => H.pricecount_imp r v v' hv hvv)
      have hdet : ∀ (u : ℚ → Row → Row) (w : ℚ) (news : Bool),
          detect_anomalies (setLast (u w) (r0 :: rest)) news 1 =
            aggregate_anomalies
              (detect_zscore_anomalies (u w ((r0 :: rest).getLastD defaultRow)))
              (detect_volatility_anomalies (u w ((r0 :: rest).getLastD defaultRow)))
              (detect_surge_anomalies (u w ((r0 :: rest).getLastD defaultRow)))
              (detect_pattern_anomalies (setLast (u w) (r0 :: rest)) 14) news 1 := by
        intro u w news
        simp only [detect_anomalies]
        rw [getLastD_setLast _ _ _ hne]
      have harith :
          (detect_zscore_anomalies (upd v ((r0 :: rest).getLastD defaultRow))).anomaly_score * (25/100) +
          (detect_volatility_anomalies (upd v ((r0 :: rest).getLastD defaultRow))).anomaly_score * (2/10) +
          (detect_surge_anomalies (upd v ((r0 :: rest).getLastD defaultRow))).anomaly_score * (35/100) +
          (detect_pattern_anomalies (setLast (upd v) (r0 :: rest)) 14).anomaly_score * (2/10) ≤
          (detect_zscore_anomalies (upd v' ((r0 :: rest).getLastD defaultRow))).anomaly_score * (25/100) +
          (detect_volatility_anomalies (upd v' ((r0 :: rest).getLastD defaultRow))).anomaly_score * (2/10) +
          (detect_surge_anomalies (upd v' ((r0 :: rest).getLastD defaultRow))).anomaly_score * (35/100) +
          (detect_pattern_anomalies (setLast (upd v') (r0 :: rest)) 14).anomaly_score * (2/10) := by
        have h1 := hz.score_le
        have h2 := hsu.score_le
        have h3 := hpat.1
        rw [hvol]
        linarith
      have hmin :
          min (((detect_zscore_anomalies (upd v ((r0 :: rest).getLastD defaultRow))).anomaly_score * (25/100) +
            (detect_volatility_anomalies (upd v ((r0 :: rest).getLastD defaultRow))).anomaly_score * (2/10) +
            (detect_surge_anomalies (upd v ((r0 :: rest).getLastD defaultRow))).anomaly_score * (35/100) +
            (detect_pattern_anomalies (setLast (upd v) (r0 :: rest)) 14).anomaly_score * (2/10)) * 1) 1 ≤
          min (((detect_zscore_anomalies (upd v' ((r0 :: rest).getLastD defaultRow))).anomaly_score * (25/100) +
            (detect_volatility_anomalies (upd v' ((r0 :: rest).getLastD defaultRow))).anomaly_score * (2/10) +
            (detect_surge_anomalies (upd v' ((r0 :: rest).getLastD defaultRow))).anomaly_score * (35/100) +
            (detect_pattern_anomalies (setLast (upd v') (r0 :: rest)) 14).anomaly_score * (2/10)) * 1) 1 := by
        refine min_le_min ?_ le_rfl
        rw [mul_one, mul_one]
        exact harith
      have hscore : (detect_anomalies (setLast (upd v) (r0 :: rest)) false 1).anomaly_score ≤
          (detect_anomalies (setLast (upd v') (r0 :: rest)) false 1).anomaly_score := by
        rw [hdet upd v false, hdet upd v' false, aggregate_false_score,
          aggregate_false_score]
        exact hmin
      constructor
      · simp only [anomalyResultOf]
        exact hscore
      · simp only [combined_probabilityOf, anomalyResultOf]
        apply combine_predictions_mono
        · exact hscore
        · intro hany
          rw [List.any_eq_true] at hany ⊢
          obtain ⟨a, hasev, ha⟩ := hany
          refine ⟨a, hasev, ?_⟩
          rw [decide_eq_true_eq] at ha ⊢
          rw [hdet upd v false, aggregate_false_types] at ha
          rw [hdet upd v' false, aggregate_false_types]
          simp only [List.mem_append] at ha ⊢
          rcases ha with ((h | h) | h) | h
          · exact Or.inl (Or.inl (Or.inl (hz.severe_imp a hasev h)))
          · rw [hvol] at h
            exact Or.inl (Or.inl (Or.inr h))
          · exact Or.inl (Or.inr (hsu.severe_imp a hasev h))
          · exact Or.inr (hpat.2.2 a hasev h)
        · intro hA
          rw [hdet upd v false] at hA
          rw [hdet upd v' false]
          rw [aggregate_false_isAnomaly] at hA
          rw [aggregate_false_isAnomaly]
          have hvlen : (detect_volatility_anomalies
              (upd v ((r0 :: rest).getLastD defaultRow))).anomaly_types.length =
              (detect_volatility_anomalies
              (upd v' ((r0 :: rest).getLastD defaultRow))).anomaly_types.length := by
            rw [hvol]
          rcases hA with h | h
          · exact Or.inl (lt_of_lt_of_le h hmin)
          · right
            have hz2 := hz.len_le
            have hs2 := hsu.len_le
            have hp2 := hpat.2.1
            simp only [List.length_append] at h ⊢
            omega
        · rw [hdet upd v false, hdet upd v' false, aggregate_surge_analysis,
            aggregate_surge_analysis]
          exact hsu.otc_imp

theorem abs_mono_of_nonneg {v v' : ℚ} (hv : 0 ≤ v) (hvv : v ≤ v') : |v| ≤ |v'| := by
  rw [abs_of_nonneg hv, abs_of_nonneg (le_trans hv hvv)]
  exact hvv

theorem monoUpdate_volumeSurgeFactor : MonoUpdate updVolumeSurgeFactor := by
  refine ⟨fun v r => rfl, fun v r => rfl, ?_, fun v v' r => rfl, ?_, ?_, ?_⟩
  · intro r v v' hv hvv
    exact DetLE_refl _
  · intro r v v' hv hvv
    exact detect_surge_surgeLE _ _ le_rfl le_rfl hvv rfl
  · intro r v v' hv hvv h
    exact lt_of_lt_of_le h hvv
  · intro r v v' _ _
    exact id

theorem monoUpdate_volumeZScoreShort : MonoUpdate updVolumeZScoreShort := by
  refine ⟨fun v r => rfl, fun v r => rfl, ?_, fun v v' r => rfl, ?_, ?_, ?_⟩
  · intro r v v' hv hvv
    exact detect_zscore_detLE _ _ le_rfl le_rfl le_rfl hvv le_rfl
  · intro r v v' hv hvv
    exact detect_surge_surgeLE _ _ le_rfl le_rfl le_rfl rfl
  · intro r v v' _ _
    exact id
  · intro r v v' _ _
    exact id

theorem monoUpdate_volumeZScoreLong : MonoUpdate updVolumeZScoreLong := by
  refine ⟨fun v r => rfl, fun v r => rfl, ?_, fun v v' r => rfl, ?_, ?_, ?_⟩
  · intro r v v' hv hvv
    exact detect_zscore_detLE _ _ le_rfl le_rfl le_rfl le_rfl hvv
  · intro r v v' hv hvv
    exact detect_surge_surgeLE _ _ le_rfl le_rfl le_rfl rfl
  · intro r v v' _ _
    exact id
  · intro r v v' _ _
    exact id

theorem monoUpdate_returnZScoreShort : MonoUpdate updReturnZScoreShort := by
  refine ⟨fun v r => rfl, fun v r => rfl, ?_, fun v v' r => rfl, ?_, ?_, ?_⟩
  · intro r v v' hv hvv
    exact detect_zscore_detLE _ _ (abs_mono_of_nonneg hv hvv) le_rfl le_rfl le_rfl le_rfl
  · intro r v v' hv hvv
    exact detect_surge_surgeLE _ _ le_rfl le_rfl le_rfl rfl
  · intro r v v' _ _
    exact id
  · intro r v v' _ _
    exact id

theorem monoUpdate_returnZScoreLong : MonoUpdate updReturnZScoreLong := by
  refine ⟨fun v r => rfl, fun v r => rfl, ?_, fun v v' r => rfl, ?_, ?_, ?_⟩
  · intro r v v' hv hvv
    exact detect_zscore_detLE _ _ le_rfl (abs_mono_of_nonneg hv hvv) le_rfl le_rfl le_rfl
  · intro r v v' hv hvv
    exact detect_surge_surgeLE _ _ le_rfl le_rfl le_rfl rfl
  · intro r v v' _ _
    exact id
  · intro r v v' _ _
    exact id

theorem monoUpdate_priceZScoreLong : MonoUpdate updPriceZScoreLong := by
  refine ⟨fun v r => rfl, fun v r => rfl, ?_, fun v v' r => rfl, ?_, ?_, ?_⟩
  · intro r v v' hv hvv
    exact detect_zscore_detLE _ _ le_rfl le_rfl (abs_mono_of_nonneg hv hvv) le_rfl le_rfl
  · intro r v v' hv hvv
    exact detect_surge_surgeLE _ _ le_rfl le_rfl le_rfl rfl
  · intro r v v' _ _
    exact id
  · intro r v v' _ _
    exact id

theorem monoUpdate_priceChange1d : MonoUpdate updPriceChange1d := by
  refine ⟨fun v r => rfl, fun v r => rfl, ?_, fun v v' r => rfl, ?_, ?_, ?_⟩
  · intro r v v' hv hvv
    exact DetLE_refl _
  · intro r v v' hv hvv
    exact detect_surge_surgeLE _ _ le_rfl (abs_mono_of_nonneg hv hvv) le_rfl rfl
  · intro r v v' _ _
    exact id
  · intro r v v' hv hvv h
    exact lt_of_lt_of_le h (abs_mono_of_nonneg hv hvv)

theorem monoUpdate_priceChange7d : MonoUpdate updPriceChange7d := by
  refine ⟨fun v r => rfl, fun v r => rfl, ?_, fun v v' r => rfl, ?_, ?_, ?_⟩
  · intro r v v' hv hvv
    exact DetLE_refl _
  · intro r v v' hv hvv
    exact detect_surge_surgeLE _ _ (abs_mono_of_nonneg hv hvv) le_rfl le_rfl rfl
  · intro r v v' _ _
    exact id
  · intro r v v' _ _
    exact id

theorem monoUpdate_priceChange30d : MonoUpdate updPriceChange30d := by
  refine ⟨fun v r => rfl, fun v r => rfl, ?_, fun v v' r => rfl, ?_, ?_, ?_⟩
  · intro r v v' hv hvv
    exact DetLE_refl _
  · intro r v v' hv hvv
    exact detect_surge_surgeLE _ _ le_rfl le_rfl le_rfl rfl
  · intro r v v' _ _
    exact id
  · intro r v v' _ _
    exact id

theorem detect_anomalies_vsf9_eval :
    detect_anomalies [{ defaultRow with volumeSurgeFactor := 9 }] true 1 =
      { is_anomaly := false, anomaly_score := 189/1000,
        anomaly_types := ["volume_explosion"],
        surge_analysis := ⟨true, 9/10, ["volume_explosion"], 0, 0, 0, 9, false⟩ } := by
  norm_num [detect_anomalies, aggregate_anomalies, detect_zscore_anomalies,
    detect_volatility_anomalies, detect_surge_anomalies,
    detect_pattern_anomalies, defaultRow, z_score_threshold,
    volume_z_threshold, price_surge_1d_threshold, price_surge_7d_threshold,
    price_surge_extreme, volume_surge_moderate, volume_surge_extreme,
    min_def, max_def, abs_eq_max_neg] <;> simp

theorem detect_anomalies_vsf85_eval :
    detect_anomalies [{ defaultRow with volumeSurgeFactor := 17/2 }] true 1 =
      { is_anomaly := false, anomaly_score := 119/400,
        anomaly_types := ["volume_explosion"],
        surge_analysis := ⟨true, 17/20, ["volume_explosion"], 0, 0, 0, 17/2, false⟩ } := by
  norm_num [detect_anomalies, aggregate_anomalies, detect_zscore_anomalies,
    detect_volatility_anomalies, detect_surge_anomalies,
    detect_pattern_anomalies, defaultRow, z_score_threshold,
    volume_z_threshold, price_surge_1d_threshold, price_surge_7d_threshold,
    price_surge_extreme, volume_surge_moderate, volume_surge_extreme,
    min_def, max_def, abs_eq_max_neg] <;> simp

/-- Claim C3 counterexample: raising a single feature can strictly lower
both the anomaly score and the combined probability.  With the news flag
set, raising Volume_Surge_Factor from 8.5 to 9 pushes the pre-dampening
score just over the 0.3 dampening cliff (0.2975 to 0.315), so the reported
score drops from 0.2975 to 0.189 and the fused probability drops with it;
and with the news flag off, raising the signed Price_Change_7d feature from
-0.6 to -0.4 shrinks its absolute value and lowers the score. -/
theorem C3_counterexample :
    ((detect_anomalies [{ defaultRow with volumeSurgeFactor := 9 }] true 1).anomaly_score <
      (detect_anomalies [{ defaultRow with volumeSurgeFactor := 17/2 }] true 1).anomaly_score) ∧
    (combine_predictions 0 none
        (detect_anomalies [{ defaultRow with volumeSurgeFactor := 9 }] true 1)
        false false false <
      combine_predictions 0 none
        (detect_anomalies [{ defaultRow with volumeSurgeFactor := 17/2 }] true 1)
        false false false) ∧
    ((detect_anomalies [{ defaultRow with priceChange7d := -(2/5) }] false 1).anomaly_score <
      (detect_anomalies [{ defaultRow with priceChange7d := -(3/5) }] false 1).anomaly_score) := by
  refine ⟨?_, ?_, ?_⟩
  · rw [detect_anomalies_vsf9_eval, detect_anomalies_vsf85_eval]
    norm_num
  · rw [detect_anomalies_vsf9_eval, detect_anomalies_vsf85_eval]
    simp only [combine_predictions, ml_prob, use_max_strategy, severe_anomalies,
      List.any_cons, List.any_nil, List.mem_cons, List.not_mem_nil, String.reduceEq]
    norm_num [List.countP_cons, min_def, max_def, abs_eq_max_neg]
  · norm_num [detect_anomalies, aggregate_anomalies, detect_zscore_anomalies,
      detect_volatility_anomalies, detect_surge_anomalies,
      detect_pattern_anomalies, defaultRow, z_score_threshold,
      volume_z_threshold, price_surge_1d_threshold, price_surge_7d_threshold,
      price_surge_extreme, volume_surge_moderate, volume_surge_extreme,
      min_def, max_def, abs_eq_max_neg]

/-- Claim C3 amended: the counterexample forces two restrictions (the news
dampening step breaks monotonicity when the news flag is set, and features
consumed through absolute values are monotone only from non-negative
values).  With the news flag off, raising any single surge, volume or
z-score feature of the latest row from a non-negative value never decreases
the aggregated anomaly score or the fused combined probability. -/
theorem C3_amended_monotonicity :
    FeatureMono updVolumeSurgeFactor ∧ FeatureMono updVolumeZScoreShort ∧
    FeatureMono updVolumeZScoreLong ∧ FeatureMono updReturnZScoreShort ∧
    FeatureMono updReturnZScoreLong ∧ FeatureMono updPriceZScoreLong ∧
    FeatureMono updPriceChange1d ∧ FeatureMono updPriceChange7d ∧
    FeatureMono updPriceChange30d :=
  ⟨monoUpdate_featureMono _ monoUpdate_volumeSurgeFactor,
   monoUpdate_featureMono _ monoUpdate_volumeZScoreShort,
   monoUpdate_featureMono _ monoUpdate_volumeZScoreLong,
   monoUpdate_featureMono _ monoUpdate_returnZScoreShort,
   monoUpdate_featureMono _ monoUpdate_returnZScoreLong,
   monoUpdate_featureMono _ monoUpdate_priceZScoreLong,
   monoUpdate_featureMono _ monoUpdate_priceChange1d,
   monoUpdate_featureMono _ monoUpdate_priceChange7d,
   monoUpdate_featureMono _ monoUpdate_priceChange30d⟩

/-- Claim C3 amended witness at a concrete input: raising Volume_Surge_Factor
from 4 to 6 with the news flag off. -/
theorem C3_amended_monotonicity_witness :
    (anomalyResultOf ⟨setLast (updVolumeSurgeFactor 4) [defaultRow],
        ⟨none, none, none, false, ""⟩, false, false, 0, none⟩).anomaly_score ≤
      (anomalyResultOf ⟨setLast (updVolumeSurgeFactor 6) [defaultRow],
        ⟨none, none, none, false, ""⟩, false, false, 0, none⟩).anomaly_score ∧
    combined_probabilityOf ⟨setLast (updVolumeSurgeFactor 4) [defaultRow],
        ⟨none, none, none, false, ""⟩, false, false, 0, none⟩ ≤
      combined_probabilityOf ⟨setLast (updVolumeSurgeFactor 6) [defaultRow],
        ⟨none, none, none, false, ""⟩, false, false, 0, none⟩ :=
  C3_amended_monotonicity.1 [defaultRow] ⟨none, none, none, false, ""⟩ false 0
    none 4 6 (by norm_num) (by norm_num)

/-- Claim C10 counterexample: with a missing current_price fundamental (and
zero market cap and volume) but a last close of 2.50, the MICROCAP_PRICE
structural signal still fires, because the source falls back from a falsy
current_price to the last close price; so a missing price fundamental does
not silently produce no structural signal. -/
theorem C10_counterexample :
    (⟨none, some 0, some 0, false, ""⟩ : Fundamentals).current_price = none ∧
    (⟨"MICROCAP_PRICE", "STRUCTURAL",
      "Stock price is below $5 - penny stock territory", 2⟩ : SignalDetail) ∈
      compute_signals (featureVectorOf defaultRow)
        ⟨none, some 0, some 0, false, ""⟩ false
        ⟨false, 0, [], ⟨false, 0, [], 0, 0, 0, 1, false⟩⟩
        [{ defaultRow with close := 5/2 }] := by
  refine ⟨rfl, ?_⟩
  norm_num [compute_signals, List.mem_append, mem_sblock, mem_sblock2,
    mem_sblock3, resolvedCurrentPrice, defaultRow, featureVectorOf]

/-- Claim C10 amended: the market-cap and liquidity gates fire exactly for
strictly positive values below their thresholds (so a missing or zero value
yields no signal), each with weight 2; the price gate fires exactly when the
RESOLVED price (the current_price fundamental when present and non-zero,
else the last close price, else 0) is strictly between 0 and 5 - a missing
or zero current_price fundamental falls back to the close price and can
still fire the signal. -/
theorem C10_amended_structural_gates (feat : FeatVec) (f : Fundamentals)
    (sec : Bool) (ar : AnomalyResult) (rows : List Row) :
    ((⟨"MICROCAP_PRICE", "STRUCTURAL",
        "Stock price is below $5 - penny stock territory", 2⟩ : SignalDetail) ∈
        compute_signals feat f sec ar rows ↔
      (0 < resolvedCurrentPrice f rows ∧ resolvedCurrentPrice f rows < 5)) ∧
    ((⟨"SMALL_MARKET_CAP", "STRUCTURAL",
        "Small market cap - more vulnerable to manipulation", 2⟩ : SignalDetail) ∈
        compute_signals feat f sec ar rows ↔
      (0 < f.market_cap.getD 0 ∧ f.market_cap.getD 0 < small_cap_threshold)) ∧
    ((⟨"MICRO_LIQUIDITY", "STRUCTURAL",
        "Very low daily volume - easier to manipulate", 2⟩ : SignalDetail) ∈
        compute_signals feat f sec ar rows ↔
      (0 < f.avg_daily_volume.getD 0 ∧
        f.avg_daily_volume.getD 0 < micro_liquidity_threshold)) := by
  refine ⟨?_, ?_, ?_⟩ <;>
    simp [compute_signals, List.mem_append, mem_sblock, mem_sblock2, mem_sblock3]

/-- Claim C2 witness at a concrete input. -/
theorem C2_range_and_total_function_witness :
    0 ≤ combined_probabilityOf
      ⟨[defaultRow], ⟨none, none, none, false, ""⟩, false, false, 1/2, none⟩ ∧
    combined_probabilityOf
      ⟨[defaultRow], ⟨none, none, none, false, ""⟩, false, false, 1/2, none⟩ ≤ 1 ∧
    risk_levelOf
      ⟨[defaultRow], ⟨none, none, none, false, ""⟩, false, false, 1/2, none⟩ =
      risk_from_prob_and_score
        (combined_probabilityOf
          ⟨[defaultRow], ⟨none, none, none, false, ""⟩, false, false, 1/2, none⟩)
        (signal_total_scoreOf
          ⟨[defaultRow], ⟨none, none, none, false, ""⟩, false, false, 1/2, none⟩) :=
  C2_range_and_total_function
    ⟨[defaultRow], ⟨none, none, none, false, ""⟩, false, false, 1/2, none⟩
    (by norm_num) (by norm_num) (fun l h => nomatch h)
    (by simp [defaultRow]) (by simp [defaultRow])
